import Mathlib

/-!
Shallow embedding of the product-matching scorer of
`product_matching_system.py` (class `ProductMatchingScorer` and the
comparison loop of `ProductMatchingSystem.run_complete_matching_workflow`).

Conventions of the embedding:
* Python values flowing through the scorer are modelled by `JValue`
  (string / number / list / dict / None); a product record (a Python
  `Dict`) is the top-level association list `PyDict`.
* Python floats are modelled by exact rationals `ℚ`.
* Python `str` helpers (`lower`, `strip`, `split`, `in`, `isdigit`,
  `float(...)` coercion, the price regex) are re-implemented character by
  character on `List Char`, restricted to ASCII data.
* Python sets are modelled by `Finset String` built from the lists of
  added elements; Python exceptions are modelled by `Option`.
-/

set_option maxHeartbeats 1000000

namespace ProductMatching

/-- Whitespace test matching Python's `str.strip`/`str.split` on ASCII data
(space, tab, newline, vertical tab, form feed, carriage return). -/
def pyIsWs (c : Char) : Bool :=
  c.toNat = 32 || c.toNat = 9 || c.toNat = 10 || c.toNat = 11 ||
  c.toNat = 12 || c.toNat = 13

/-- ASCII digit test for one character. -/
def pyIsDigitChar (c : Char) : Bool := 48 ≤ c.toNat && c.toNat ≤ 57

/-- Python `str.isdigit`: nonempty and every character a digit. -/
def pyIsdigitStr (s : String) : Bool := !s.data.isEmpty && s.data.all pyIsDigitChar

/-- ASCII lower-casing of one character, modelling `str.lower` on ASCII data. -/
def asciiLowerChar (c : Char) : Char :=
  if 65 ≤ c.toNat ∧ c.toNat ≤ 90 then Char.ofNat (c.toNat + 32) else c

/-- Python `str.lower` (ASCII). -/
def pyLower (s : String) : String := String.mk (s.data.map asciiLowerChar)

/-- Drop leading whitespace characters. -/
def dropWsLeft : List Char → List Char
  | [] => []
  | c :: cs => if pyIsWs c then dropWsLeft cs else c :: cs

/-- Python `str.strip`: drop whitespace from both ends. -/
def pyStrip (s : String) : String :=
  String.mk ((dropWsLeft ((dropWsLeft s.data).reverse)).reverse)

/-- Helper for `pySplitWs`: accumulate the current word (reversed) while
scanning. -/
def splitWsAux : List Char → List Char → List String
  | [], acc => if acc.isEmpty then [] else [String.mk acc.reverse]
  | c :: cs, acc =>
    if pyIsWs c then
      if acc.isEmpty then splitWsAux cs []
      else String.mk acc.reverse :: splitWsAux cs []
    else splitWsAux cs (c :: acc)

/-- Python `str.split()` with no argument: split on whitespace runs and
drop empty pieces. -/
def pySplitWs (s : String) : List String := splitWsAux s.data []

/-- Helper for `splitDots`: accumulate the current segment (reversed). -/
def splitCharAux (sep : Char) : List Char → List Char → List String
  | [], acc => [String.mk acc.reverse]
  | c :: cs, acc =>
    if c = sep then String.mk acc.reverse :: splitCharAux sep cs []
    else splitCharAux sep cs (c :: acc)

/-- Python `path.split('.')` as used on the dotted lookup paths. -/
def splitDots (s : String) : List String := splitCharAux '.' s.data []

/-- Does the second list start with the first one? -/
def listStartsWith : List Char → List Char → Bool
  | [], _ => true
  | _ :: _, [] => false
  | p :: ps, c :: cs => p == c && listStartsWith ps cs

/-- Substring containment on character lists. -/
def listContainsSub (pat : List Char) : List Char → Bool
  | [] => listStartsWith pat []
  | c :: cs => listStartsWith pat (c :: cs) || listContainsSub pat cs

/-- Python `needle in hay` on strings (substring containment). -/
def pyIn (needle hay : String) : Bool := listContainsSub needle.data hay.data

/-- Numeric value of a digit run. -/
def digitsVal (l : List Char) : Nat := l.foldl (fun n c => 10 * n + (c.toNat - 48)) 0

/-- Split off the leading run of digits. -/
def takeDigitsRun : List Char → List Char × List Char
  | [] => ([], [])
  | c :: cs =>
    if pyIsDigitChar c then
      let r := takeDigitsRun cs
      (c :: r.1, r.2)
    else ([], c :: cs)

/-- Parse an unsigned decimal literal (`digits`, `digits.`, `digits.digits`,
`.digits`), the whole input must be consumed. -/
def parseUnsigned (l : List Char) : Option ℚ :=
  let d1 := takeDigitsRun l
  match d1.2 with
  | [] => if d1.1.isEmpty then none else some (digitsVal d1.1 : ℚ)
  | c :: rest =>
    if c = '.' then
      let d2 := takeDigitsRun rest
      if d2.2.isEmpty && (!d1.1.isEmpty || !d2.1.isEmpty) then
        some ((digitsVal d1.1 : ℚ) + (digitsVal d2.1 : ℚ) / (10 : ℚ) ^ d2.1.length)
      else none
    else none

/-- Python `float(s)` on a string: strip whitespace, optional sign, decimal
literal; failures (raises) become `none`. -/
def parsePyFloat (s : String) : Option ℚ :=
  let l0 := dropWsLeft ((dropWsLeft s.data).reverse)
  let l := l0.reverse
  match l with
  | '-' :: rest => (parseUnsigned rest).map (fun q => -q)
  | '+' :: rest => parseUnsigned rest
  | _ => parseUnsigned l

/-- Value of a matched price run: digits, optionally followed by a dot and
more digits (the regex `[\d,]+\.?\d*` after commas were removed). -/
def priceRunVal (l : List Char) : Option ℚ :=
  let d1 := takeDigitsRun l
  if d1.1.isEmpty then none
  else
    match d1.2 with
    | '.' :: rest =>
      let d2 := takeDigitsRun rest
      some ((digitsVal d1.1 : ℚ) + (digitsVal d2.1 : ℚ) / (10 : ℚ) ^ d2.1.length)
    | _ => some (digitsVal d1.1 : ℚ)

/-- Scan for the first digit and read the price run there
(`re.search` of the price pattern). -/
def priceScanAux : List Char → Option ℚ
  | [] => none
  | c :: cs => if pyIsDigitChar c then priceRunVal (c :: cs) else priceScanAux cs

/-- Model of `re.search(r'[\d,]+\.?\d*', price_str.replace(',', ''))`
followed by `float(...)` in `_extract_price`. -/
def priceScan (s : String) : Option ℚ :=
  priceScanAux (s.data.filter (fun c => !(c == ',')))

/-- Smallest exponent `i` below the fuel bound with `d ∣ 10 ^ i`. -/
def findPowAux (d : Nat) : Nat → Nat → Option Nat
  | _, 0 => none
  | i, fuel + 1 => if d ∣ 10 ^ i then some i else findPowAux d (i + 1) fuel

/-- Left-pad a digit list with zeros to the given length. -/
def padLeftZeros (s : List Char) (n : Nat) : List Char :=
  List.replicate (n - s.length) '0' ++ s

/-- Fuel-driven decimal digits of a natural number (most significant
first); the fixed fuel of 30 covers every number that occurs. -/
def natDecimalAux : Nat → Nat → List Char → List Char
  | _, 0, acc => acc
  | n, fuel + 1, acc =>
    if n = 0 then acc
    else natDecimalAux (n / 10) fuel (Char.ofNat (48 + n % 10) :: acc)

/-- Decimal digit list of a natural number. -/
def natDecimalChars (n : Nat) : List Char :=
  if n = 0 then ['0'] else natDecimalAux n 30 []

/-- Decimal rendering of a natural number. -/
def natDecimalStr (n : Nat) : String := String.mk (natDecimalChars n)

/-- Decimal rendering of a rational, modelling Python `str` on the floats
that flow through the scorer (`str(100.0) = "100.0"`, `str(38.97) = "38.97"`).
Rationals with a denominator not dividing a power of ten fall back to a
fraction rendering (no such value is produced by Python floats). -/
def pyFloatRepr (q : ℚ) : String :=
  let sign : String := if q < 0 then "-" else ""
  let a := q.num.natAbs
  let d := q.den
  match findPowAux d 0 80 with
  | some 0 => sign ++ natDecimalStr a ++ ".0"
  | some k =>
    let scaled := a * 10 ^ k / d
    let ds := padLeftZeros (natDecimalChars scaled) (k + 1)
    let ip := ds.take (ds.length - k)
    let fp := ds.drop (ds.length - k)
    sign ++ String.mk ip ++ "." ++ String.mk fp
  | none => sign ++ natDecimalStr a ++ "/" ++ natDecimalStr d

/-- Semi-structured Python values the scorer reads: strings, floats,
lists, dicts and `None`. -/
inductive JValue where
  | str : String → JValue
  | num : ℚ → JValue
  | list : List JValue → JValue
  | obj : List (String × JValue) → JValue
  | null : JValue

/-- A product record: the top-level Python dict handed to the scorer. -/
abbrev PyDict := List (String × JValue)

/-- Python truthiness of a value (`if value:`). -/
def pyTruthy : JValue → Bool
  | JValue.str s => !s.data.isEmpty
  | JValue.num q => decide (q ≠ 0)
  | JValue.list xs => !xs.isEmpty
  | JValue.obj kvs => !kvs.isEmpty
  | JValue.null => false

mutual

/-- Python `repr` of a value (used by `str` on non-string values). -/
def pyRepr : JValue → String
  | JValue.str s => "\x27" ++ s ++ "\x27"
  | JValue.num q => pyFloatRepr q
  | JValue.null => "None"
  | JValue.list xs => "[" ++ pyReprList xs ++ "]"
  | JValue.obj kvs => "\x7b" ++ pyReprObj kvs ++ "\x7d"

/-- Comma-separated reprs of list elements. -/
def pyReprList : List JValue → String
  | [] => ""
  | [x] => pyRepr x
  | x :: y :: rest => pyRepr x ++ ", " ++ pyReprList (y :: rest)

/-- Comma-separated reprs of dict items. -/
def pyReprObj : List (String × JValue) → String
  | [] => ""
  | [kv] => "\x27" ++ kv.1 ++ "\x27: " ++ pyRepr kv.2
  | kv :: kv2 :: rest =>
    "\x27" ++ kv.1 ++ "\x27: " ++ pyRepr kv.2 ++ ", " ++ pyReprObj (kv2 :: rest)

end

/-- Python `str(value)`. -/
def pyStr : JValue → String
  | JValue.str s => s
  | v => pyRepr v

/-- Python `float(value)`: numbers pass through, strings are parsed,
anything else raises (`none`). -/
def pyFloatOf : JValue → Option ℚ
  | JValue.num q => some q
  | JValue.str s => parsePyFloat s
  | _ => none

/-- Dict lookup (first binding of the key). -/
def dictGet : PyDict → String → Option JValue
  | [], _ => none
  | kv :: rest, key => if kv.1 = key then some kv.2 else dictGet rest key

/-- Walk of `_get_nested_value`: `value = value[key]` step by step, any
`KeyError`/`TypeError` caught as `none`. -/
def getNestedAux : JValue → List String → Option JValue
  | v, [] => some v
  | JValue.obj kvs, k :: ks =>
    match dictGet kvs k with
    | some v => getNestedAux v ks
    | none => none
  | _, _ :: _ => none

/-- `ProductMatchingScorer._get_nested_value`. -/
def get_nested_value (r : PyDict) (path : String) : Option JValue :=
  getNestedAux (JValue.obj r) (splitDots path)

/-- Walk of `_extract_text_safely` for one dotted path: missing keys
default to `""` and a non-dict in the middle breaks with `""`. -/
def walkTextAux : JValue → List String → JValue
  | v, [] => v
  | JValue.obj kvs, k :: ks => walkTextAux ((dictGet kvs k).getD (JValue.str "")) ks
  | _, _ :: _ => JValue.str ""

/-- One candidate path of `_extract_text_safely`: the walked value when it
is a nonempty string (`if value and isinstance(value, str)`), else `none`. -/
def resolveCandidate (r : PyDict) (path : String) : Option String :=
  match walkTextAux (JValue.obj r) (splitDots path) with
  | JValue.str s => if s = "" then none else some s
  | _ => none

/-- `ProductMatchingScorer._extract_text_safely`: concatenate every usable
candidate value with a leading space, then strip and lower-case. -/
def extract_text_safely (r : PyDict) (paths : List String) : String :=
  pyLower (pyStrip (paths.foldl (fun acc p =>
    match resolveCandidate r p with
    | some v => acc ++ " " ++ v
    | none => acc) ""))

/-- The `self.scoring_weights` table of `ProductMatchingScorer.__init__`. -/
def scoring_weights (key : String) : ℚ :=
  if key = "upc_match" then 100
  else if key = "model_match" then 80
  else if key = "brand_match" then 40
  else if key = "title_similarity_high" then 70
  else if key = "title_similarity_medium" then 50
  else if key = "title_similarity_low" then 30
  else if key = "dimensions_exact" then 60
  else if key = "dimensions_close" then 40
  else if key = "weight_exact" then 50
  else if key = "weight_close" then 30
  else if key = "price_match" then 25
  else if key = "category_match" then 20
  else if key = "color_match" then 15
  else if key = "material_match" then 15
  else if key = "feature_keyword" then 5
  else 0

/-- Amazon-side candidate paths probed by `_check_upc_match`. -/
def amazon_upc_paths : List String :=
  ["specifications.upc", "specifications.gtin", "specifications.ean",
   "identifiers.upc", "identifiers.gtin", "identifiers.ean",
   "basic_info.upc", "basic_info.gtin"]

/-- Target-side candidate paths probed by `_check_upc_match`. -/
def target_upc_paths : List String :=
  ["basic_info.upc", "basic_info.gtin",
   "technical_specs.specifications.upc",
   "product_details.upc"]

/-- `ProductMatchingScorer._check_upc_match`. -/
def check_upc_match (amazon target : PyDict) : ℚ :=
  let au := extract_text_safely amazon amazon_upc_paths
  let tu := extract_text_safely target target_upc_paths
  if au ≠ "" ∧ tu ≠ "" ∧ 8 < au.length then
    if au = tu then scoring_weights "upc_match" else 0
  else 0

/-- Amazon-side candidate paths probed by `_check_model_match`. -/
def amazon_model_paths : List String :=
  ["specifications.model_number", "specifications.model",
   "identifiers.model_number", "basic_info.model_number"]

/-- Target-side candidate paths probed by `_check_model_match`. -/
def target_model_paths : List String :=
  ["basic_info.model_number", "technical_specs.specifications.model_number",
   "product_details.model"]

/-- `ProductMatchingScorer._check_model_match`. -/
def check_model_match (amazon target : PyDict) : ℚ :=
  let am := extract_text_safely amazon amazon_model_paths
  let tm := extract_text_safely target target_model_paths
  if am ≠ "" ∧ tm ≠ "" ∧ 3 < am.length then
    if am = tm then scoring_weights "model_match"
    else if pyIn am tm || pyIn tm am then scoring_weights "model_match" * 0.7
    else 0
  else 0

/-- The static `brand_mappings` table of `_brands_similar`. -/
def brand_mappings : List (String × List String) :=
  [("amazon basics", ["amazonbasics", "amazon", "basics"]),
   ("apple", ["apple inc", "apple computer"]),
   ("samsung", ["samsung electronics", "samsung group"]),
   ("google", ["google llc", "alphabet"]),
   ("microsoft", ["microsoft corporation", "msft"]),
   ("sony", ["sony corporation", "sony group"]),
   ("lg", ["lg electronics", "lg corp"]),
   ("hp", ["hewlett-packard", "hewlett packard"]),
   ("dell", ["dell technologies", "dell inc"]),
   ("lenovo", ["lenovo group"]),
   ("best office", ["bestoffice"]),
   ("ikea", ["ikea group"]),
   ("wayfair", ["wayfair llc"]),
   ("nike", ["nike inc"]),
   ("adidas", ["adidas ag"]),
   ("under armour", ["underarmour"]),
   ("cuisinart", ["conair cuisinart"]),
   ("kitchenaid", ["kitchen aid"]),
   ("black decker", ["black & decker", "blackdecker"]),
   ("pro", ["professional"]),
   ("max", ["maximum"]),
   ("ultra", ["ultra-"]),
   ("plus", ["+"])]

/-- Abbreviation check of `_brands_similar`: the initials of the words of
the first brand equal the second (short) brand. -/
def brandAbbrevMatch (b1 b2 : String) : Bool :=
  let ws := pySplitWs b1
  decide (1 < ws.length) && decide (b2.length ≤ 4) &&
    (String.mk (ws.filterMap (fun w => w.data.head?)) == b2)

/-- `ProductMatchingScorer._brands_similar`. -/
def brands_similar (brand1 brand2 : String) : Bool :=
  let b1 := pyStrip (pyLower brand1)
  let b2 := pyStrip (pyLower brand2)
  (b1 == b2) ||
  brand_mappings.any (fun cv =>
    (b1 == cv.1 || cv.2.contains b1) && (b2 == cv.1 || cv.2.contains b2)) ||
  (decide (3 < b1.length) && decide (3 < b2.length) && (pyIn b1 b2 || pyIn b2 b1)) ||
  brandAbbrevMatch b1 b2 ||
  brandAbbrevMatch b2 b1

/-- `ProductMatchingScorer._check_brand_match`. -/
def check_brand_match (amazon target : PyDict) : ℚ :=
  let ab := extract_text_safely amazon ["brand", "basic_info.brand"]
  let tb := extract_text_safely target ["basic_info.brand", "brand"]
  if ab ≠ "" ∧ tb ≠ "" then
    if ab = tb then scoring_weights "brand_match"
    else if brands_similar ab tb then scoring_weights "brand_match" * 0.8
    else 0
  else 0

/-- The `noise_words` list of `_normalize_title`. -/
def noise_words : List String :=
  ["for", "with", "and", "the", "a", "an", "in", "on", "at", "by", "of",
   "to", "from"]

/-- Word-character test for the regex `[^\w\s]` on ASCII data. -/
def isWordChar (c : Char) : Bool :=
  (65 ≤ c.toNat && c.toNat ≤ 90) || (97 ≤ c.toNat && c.toNat ≤ 122) ||
  pyIsDigitChar c || c == '_'

/-- One character of `re.sub(r'[^\w\s]', ' ', ...)`. -/
def normalizeChar (c : Char) : Char :=
  if isWordChar c || pyIsWs c then c else ' '

/-- `ProductMatchingScorer._normalize_title`. -/
def normalize_title (title : String) : String :=
  let lowered := pyLower title
  let subbed := String.mk (lowered.data.map normalizeChar)
  let collapsed := " ".intercalate (pySplitWs subbed)
  let ws := (pySplitWs collapsed).filter
    (fun w => decide (2 < w.length) && !noise_words.contains w)
  " ".intercalate ws

/-- `ProductMatchingScorer._calculate_text_similarity` (token Jaccard). -/
def calculate_text_similarity (text1 text2 : String) : ℚ :=
  if text1 = "" ∨ text2 = "" then 0
  else
    let tokens1 := (pySplitWs text1).toFinset
    let tokens2 := (pySplitWs text2).toFinset
    let inter := tokens1 ∩ tokens2
    let uni := tokens1 ∪ tokens2
    if uni = ∅ then 0 else (inter.card : ℚ) / (uni.card : ℚ)

/-- `ProductMatchingScorer._check_title_similarity`. -/
def check_title_similarity (amazon target : PyDict) : ℚ :=
  let ta := extract_text_safely amazon ["title", "basic_info.name"]
  let tt := extract_text_safely target ["basic_info.name", "title"]
  if ta = "" ∨ tt = "" then 0
  else
    let ac := normalize_title ta
    let tc := normalize_title tt
    let sim := calculate_text_similarity ac tc
    let aw := (pySplitWs (pyLower ac)).toFinset
    let tw := (pySplitWs (pyLower tc)).toFinset
    let common := aw ∩ tw
    let bonus := min ((common.card : ℚ) * 0.1) 0.3
    let sim2 := sim + bonus
    if 0.75 ≤ sim2 then scoring_weights "title_similarity_high"
    else if 0.5 ≤ sim2 then scoring_weights "title_similarity_medium"
    else if 0.25 ≤ sim2 then scoring_weights "title_similarity_low"
    else if 0.1 ≤ sim2 then scoring_weights "title_similarity_low" * 0.5
    else 0

/-- Generic first-success probe shared by `_extract_dimensions`,
`_extract_weight`, `_extract_price` and `_extract_color`: for each path in
order, read the nested value, skip falsy values, apply the reader `f`,
and move on when it fails. -/
def probeFirst (f : JValue → Option α) : PyDict → List String → Option α
  | _, [] => none
  | r, p :: ps =>
    match get_nested_value r p with
    | some v =>
      if pyTruthy v then
        match f v with
        | some x => some x
        | none => probeFirst f r ps
      else probeFirst f r ps
    | none => probeFirst f r ps

/-- The dimension keys probed by `_extract_dimensions`. -/
def dim_keys : List String := ["length", "width", "height"]

/-- The candidate paths of `_extract_dimensions`. -/
def dim_paths : List String :=
  ["physical_attributes", "specifications.dimensions",
   "technical_specs.specifications"]

/-- The value `_extract_dimensions` coerces for one key of a candidate
dict: present and float-coercible, or skipped. -/
def dimVal (kvs : PyDict) (k : String) : Option ℚ :=
  match dictGet kvs k with
  | some w => pyFloatOf w
  | none => none

/-- The per-key extraction of `_extract_dimensions` on one candidate value:
only keys present in a dict with float-coercible values survive; on a
non-dict every indexing raises and is skipped. -/
def extractDimsFrom (v : JValue) : List (String × ℚ) :=
  match v with
  | JValue.obj kvs =>
    dim_keys.filterMap (fun k =>
      match dimVal kvs k with
      | some q => some (k, q)
      | none => none)
  | _ => []

/-- `ProductMatchingScorer._extract_dimensions`. -/
def extract_dimensions (r : PyDict) : Option (List (String × ℚ)) :=
  probeFirst (fun v =>
    let e := extractDimsFrom v
    if 2 ≤ e.length then some e else none) r dim_paths

/-- Association lookup on a dimension list. -/
def dimGet : List (String × ℚ) → String → Option ℚ
  | [], _ => none
  | kv :: rest, key => if kv.1 = key then some kv.2 else dimGet rest key

/-- One key of `_dimensions_match`: zero values are skipped, otherwise the
relative difference against the larger value must stay within tolerance. -/
def relOk (v1 v2 tol : ℚ) : Bool :=
  decide (v1 = 0 ∨ v2 = 0 ∨ |v1 - v2| / max v1 v2 ≤ tol)

/-- `ProductMatchingScorer._dimensions_match`. -/
def dimensions_match (dims1 dims2 : List (String × ℚ)) (tol : ℚ) : Bool :=
  let common := dims1.filterMap (fun kv =>
    match dimGet dims2 kv.1 with
    | some v2 => some (kv.2, v2)
    | none => none)
  decide (2 ≤ common.length) && common.all (fun pr => relOk pr.1 pr.2 tol)

/-- `ProductMatchingScorer._check_dimensions_match`. -/
def check_dimensions_match (amazon target : PyDict) : ℚ :=
  match extract_dimensions amazon, extract_dimensions target with
  | some da, some dt =>
    if dimensions_match da dt 0 then scoring_weights "dimensions_exact"
    else if dimensions_match da dt 0.05 then scoring_weights "dimensions_close"
    else 0
  | _, _ => 0

/-- The candidate paths of `_extract_weight`. -/
def weight_paths : List String :=
  ["physical_attributes.weight", "specifications.weight",
   "technical_specs.specifications.weight"]

/-- `ProductMatchingScorer._extract_weight`. -/
def extract_weight (r : PyDict) : Option ℚ := probeFirst pyFloatOf r weight_paths

/-- `ProductMatchingScorer._check_weight_match`. -/
def check_weight_match (amazon target : PyDict) : ℚ :=
  match extract_weight amazon, extract_weight target with
  | some wa, some wt =>
    if wa = 0 ∨ wt = 0 then 0
    else
      let diff := |wa - wt| / max wa wt
      if diff = 0 then scoring_weights "weight_exact"
      else if diff ≤ 0.1 then scoring_weights "weight_close"
      else 0
  | _, _ => 0

/-- The candidate paths of `_extract_price`. -/
def price_paths : List String :=
  ["pricing.current_price", "pricing.formatted_current_price", "pricing.price"]

/-- `ProductMatchingScorer._extract_price`. -/
def extract_price (r : PyDict) : Option ℚ :=
  probeFirst (fun v => priceScan (pyStr v)) r price_paths

/-- `ProductMatchingScorer._check_price_match`. -/
def check_price_match (amazon target : PyDict) : ℚ :=
  match extract_price amazon, extract_price target with
  | some pa, some pt =>
    if pa = 0 ∨ pt = 0 then 0
    else
      let diff := |pa - pt| / max pa pt
      if diff ≤ 0.2 then scoring_weights "price_match" else 0
  | _, _ => 0

/-- The candidate paths of `_extract_categories`. -/
def category_paths : List String :=
  ["categories", "category_info.category_name", "breadcrumbs"]

/-- The strings one truthy candidate value contributes to a gathered set
(lists elementwise, anything else as a single `str(...)`), lower-cased. -/
def gatherStrings (v : JValue) : List String :=
  match v with
  | JValue.list xs => xs.map (fun x => pyLower (pyStr x))
  | _ => [pyLower (pyStr v)]

/-- Gather loop shared by `_extract_categories` and `_extract_materials`. -/
def gatherFromPaths (f : JValue → List String) (r : PyDict)
    (paths : List String) : List String :=
  paths.foldl (fun acc p =>
    match get_nested_value r p with
    | some v => if pyTruthy v then acc ++ f v else acc
    | none => acc) []

/-- `ProductMatchingScorer._extract_categories`. -/
def extract_categories (r : PyDict) : Finset String :=
  (gatherFromPaths gatherStrings r category_paths).toFinset

/-- The explicit product-type word list of `_extract_product_type_keywords`. -/
def type_word_list : List String :=
  ["chair", "table", "phone", "laptop", "book", "speaker", "headphone",
   "mouse", "keyboard", "monitor", "tablet", "camera", "watch", "bag",
   "case", "cable", "charger", "stand", "holder", "rack", "shelf",
   "light", "lamp", "fan", "heater", "cooler", "bottle", "cup", "mug",
   "tool", "drill", "saw", "hammer", "screwdriver", "wrench", "kit",
   "game", "controller", "console", "tv", "remote", "adapter"]

/-- The compound-base words of `_extract_product_type_keywords`. -/
def compound_bases : List String :=
  ["office", "gaming", "wireless", "bluetooth", "smart", "digital",
   "electric", "manual", "portable", "desktop", "mobile"]

/-- The indexed word loop of `_extract_product_type_keywords`: words of
length at most two or pure digit words are skipped; a kept word is added
when it is the first word or listed, and the compound with the following
word is added when it contains a compound base. -/
def ptkLoop : Nat → List String → List String
  | _, [] => []
  | i, w :: rest =>
    if decide (w.length ≤ 2) || pyIsdigitStr w then ptkLoop (i + 1) rest
    else
      let base := if i = 0 || type_word_list.contains w then [w] else []
      let comp :=
        match rest with
        | [] => []
        | w2 :: _ =>
          let c := w ++ " " ++ w2
          if compound_bases.any (fun b => pyIn b c) then [c] else []
      base ++ comp ++ ptkLoop (i + 1) rest

/-- `ProductMatchingScorer._extract_product_type_keywords`. -/
def extract_product_type_keywords (title : String) : Finset String :=
  (ptkLoop 0 (pySplitWs (pyLower title))).toFinset

/-- The `related_groups` table of `_check_related_product_types`. -/
def related_groups : List (List String) :=
  [["chair", "seat", "stool", "bench"],
   ["table", "desk", "workstation", "stand"],
   ["phone", "smartphone", "mobile", "cell phone"],
   ["laptop", "notebook", "computer", "pc"],
   ["headphone", "headset", "earphone", "earbuds"],
   ["speaker", "soundbar", "audio", "sound system"],
   ["mouse", "trackball", "touchpad", "pointing device"],
   ["keyboard", "keypad", "input device"],
   ["monitor", "display", "screen", "lcd", "led"],
   ["tablet", "ipad", "android tablet", "slate"],
   ["camera", "webcam", "camcorder", "video camera"],
   ["watch", "smartwatch", "fitness tracker", "wearable"],
   ["bag", "backpack", "case", "pouch", "sleeve"],
   ["cable", "cord", "wire", "connector"],
   ["charger", "adapter", "power supply", "battery"],
   ["light", "lamp", "led", "bulb", "lighting"],
   ["tool", "equipment", "instrument", "device"]]

/-- Group membership test of `_check_related_product_types`: some type of
the set is a substring of a group item or vice versa. -/
def typesInGroup (types : Finset String) (group : List String) : Bool :=
  decide (∃ t ∈ types, ∃ gi ∈ group, pyIn t gi || pyIn gi t)

/-- `ProductMatchingScorer._check_related_product_types`. -/
def check_related_product_types (amazon_types target_types : Finset String) : ℚ :=
  if related_groups.any (fun g =>
      typesInGroup amazon_types g && typesInGroup target_types g) then
    scoring_weights "category_match" * 0.7
  else 0

/-- `ProductMatchingScorer._check_category_match`. -/
def check_category_match (amazon target : PyDict) : ℚ :=
  let ac := extract_categories amazon
  let tc := extract_categories target
  if ac.Nonempty ∧ tc.Nonempty ∧ (ac ∩ tc).Nonempty then
    scoring_weights "category_match"
  else
    let ta := pyLower (extract_text_safely amazon ["title", "basic_info.name"])
    let tt := pyLower (extract_text_safely target ["basic_info.name", "title"])
    let apt := extract_product_type_keywords ta
    let tpt := extract_product_type_keywords tt
    if apt.Nonempty ∧ tpt.Nonempty then
      if (apt ∩ tpt).Nonempty then scoring_weights "category_match"
      else check_related_product_types apt tpt
    else 0

/-- The candidate paths of `_extract_color`. -/
def color_paths : List String :=
  ["variations.color", "specifications.color", "product_details.color"]

/-- `ProductMatchingScorer._extract_color`. -/
def extract_color (r : PyDict) : Option String :=
  probeFirst (fun v => some (pyLower (pyStr v))) r color_paths

/-- `ProductMatchingScorer._check_color_match`. -/
def check_color_match (amazon target : PyDict) : ℚ :=
  match extract_color amazon, extract_color target with
  | some ca, some ct =>
    if ca ≠ "" ∧ ct ≠ "" ∧ ca = ct then scoring_weights "color_match" else 0
  | _, _ => 0

/-- The candidate paths of `_extract_materials`. -/
def material_paths : List String :=
  ["specifications.material", "product_details.materials",
   "technical_specs.specifications.material"]

/-- `ProductMatchingScorer._extract_materials`. -/
def extract_materials (r : PyDict) : Finset String :=
  (gatherFromPaths gatherStrings r material_paths).toFinset

/-- `ProductMatchingScorer._check_material_match`. -/
def check_material_match (amazon target : PyDict) : ℚ :=
  let ma := extract_materials amazon
  let mt := extract_materials target
  if ma.Nonempty ∧ mt.Nonempty ∧ (ma ∩ mt).Nonempty then
    scoring_weights "material_match"
  else 0

/-- The candidate paths of `_extract_features`. -/
def feature_paths : List String :=
  ["specifications", "product_details.highlights",
   "technical_specs.specifications"]

/-- The strings one truthy candidate value contributes to the raw feature
set: dict keys and values, or list items, lower-cased. -/
def featureVals (v : JValue) : List String :=
  match v with
  | JValue.obj kvs =>
    kvs.foldr (fun kv acc => pyLower kv.1 :: pyLower (pyStr kv.2) :: acc) []
  | JValue.list xs => xs.map (fun x => pyLower (pyStr x))
  | _ => []

/-- `ProductMatchingScorer._extract_features` (raw gathering followed by
the cleaning filter dropping short and pure-digit tokens). -/
def extract_features (r : PyDict) : Finset String :=
  ((gatherFromPaths featureVals r feature_paths).toFinset).filter
    (fun f => 3 < f.length ∧ pyIsdigitStr f = false)

/-- `ProductMatchingScorer._check_feature_keywords`. -/
def check_feature_keywords (amazon target : PyDict) : ℚ :=
  let af := extract_features amazon
  let tf := extract_features target
  if af = ∅ ∨ tf = ∅ then 0
  else ((af ∩ tf).card : ℚ) * scoring_weights "feature_keyword"

/-- The `primary_types` vocabulary of `_extract_universal_product_types`
(a Python set literal; duplicated entries are harmless). -/
def primary_types : List String :=
  ["electronics", "electronic", "digital", "smart", "wireless", "bluetooth",
   "phone", "smartphone", "mobile", "iphone", "android", "cell",
   "laptop", "computer", "pc", "desktop", "notebook", "macbook",
   "tablet", "ipad", "kindle", "e-reader",
   "headphone", "headphones", "headset", "earphones", "earbuds",
   "speaker", "speakers", "soundbar", "audio", "bluetooth speaker",
   "mouse", "keyboard", "monitor", "display", "screen",
   "camera", "webcam", "gopro", "camcorder",
   "watch", "smartwatch", "fitness", "tracker", "fitbit", "apple watch",
   "charger", "cable", "adapter", "power", "battery", "charging",
   "chair", "table", "desk", "bed", "sofa", "couch", "dresser", "cabinet",
   "office", "gaming", "ergonomic", "executive", "task", "swivel",
   "dining", "coffee", "side", "end", "nightstand", "bookshelf",
   "shirt", "pants", "dress", "jacket", "shoes", "boots", "sneakers",
   "bag", "backpack", "purse", "wallet", "belt", "hat", "cap",
   "watch", "jewelry", "necklace", "bracelet", "ring",
   "kitchen", "cooking", "baking", "dining",
   "pot", "pan", "knife", "spoon", "fork", "plate", "bowl", "cup", "mug",
   "blender", "mixer", "toaster", "microwave", "oven", "refrigerator",
   "sports", "fitness", "outdoor", "camping", "hiking", "running",
   "bike", "bicycle", "skateboard", "scooter",
   "ball", "basketball", "football", "soccer", "tennis", "baseball",
   "tool", "tools", "drill", "saw", "hammer", "screwdriver", "wrench",
   "kit", "set", "toolbox", "hardware", "equipment",
   "book", "books", "novel", "textbook", "magazine", "comic",
   "movie", "dvd", "blu-ray", "cd", "vinyl", "record",
   "game", "games", "video game", "board game", "puzzle",
   "health", "beauty", "skincare", "makeup", "cosmetic",
   "shampoo", "soap", "lotion", "cream", "serum",
   "vitamin", "supplement", "medicine", "first aid",
   "car", "auto", "automotive", "vehicle", "truck", "motorcycle",
   "tire", "wheel", "battery", "oil", "parts", "accessory"]

/-- Space-joined adjacent word pairs of a word list. -/
def adjacentPairs : List String → List String
  | [] => []
  | [_] => []
  | w1 :: w2 :: rest => (w1 ++ " " ++ w2) :: adjacentPairs (w2 :: rest)

/-- `ProductMatchingScorer._extract_universal_product_types`. -/
def extract_universal_product_types (title : String) : Finset String :=
  let words := pySplitWs (pyLower title)
  let singles := words.filter (fun w => primary_types.contains w)
  let compounds := (adjacentPairs words).filter (fun c => primary_types.contains c)
  (singles ++ compounds).toFinset

/-- The `compatibility_groups` table of
`_calculate_product_type_compatibility`, in dict insertion order. -/
def compatibility_groups : List (String × List (String × List String)) :=
  [("electronics",
    [("mobile_devices",
      ["phone", "smartphone", "mobile", "iphone", "android", "cell",
       "tablet", "ipad"]),
     ("computers", ["laptop", "computer", "pc", "desktop", "notebook", "macbook"]),
     ("audio",
      ["headphone", "headphones", "headset", "earphones", "earbuds",
       "speaker", "speakers", "soundbar", "audio"]),
     ("peripherals", ["mouse", "keyboard", "monitor", "display", "screen"]),
     ("accessories",
      ["charger", "cable", "adapter", "power", "battery", "charging", "case"]),
     ("wearables", ["watch", "smartwatch", "fitness", "tracker", "fitbit"])]),
   ("furniture",
    [("seating", ["chair", "sofa", "couch", "bench", "stool", "seat"]),
     ("tables",
      ["table", "desk", "dining", "coffee", "side", "end", "nightstand"]),
     ("office",
      ["office", "desk", "chair", "gaming", "ergonomic", "executive", "task"]),
     ("storage", ["dresser", "cabinet", "bookshelf", "shelf", "rack"])]),
   ("apparel",
    [("clothing", ["shirt", "pants", "dress", "jacket", "clothes"]),
     ("footwear", ["shoes", "boots", "sneakers", "sandals"]),
     ("accessories",
      ["bag", "backpack", "purse", "wallet", "belt", "hat", "cap"])]),
   ("kitchen",
    [("cookware", ["pot", "pan", "skillet", "wok"]),
     ("utensils", ["knife", "spoon", "fork", "spatula"]),
     ("appliances", ["blender", "mixer", "toaster", "microwave", "oven"]),
     ("dinnerware", ["plate", "bowl", "cup", "mug", "glass"])])]

/-- Subcategory names matched by a type set within one main category. -/
def subcatMatches (types : Finset String)
    (subs : List (String × List String)) : List String :=
  (subs.filter (fun si => si.2.any (fun item => decide (item ∈ types)))).map
    Prod.fst

/-- `ProductMatchingScorer._check_semantic_similarity` (word-overlap
fallback over the joined type sets). -/
def check_semantic_similarity (amazon_types target_types : Finset String) : ℚ :=
  let aw := amazon_types.biUnion (fun s => (pySplitWs s).toFinset)
  let tw := target_types.biUnion (fun s => (pySplitWs s).toFinset)
  if aw.Nonempty ∧ tw.Nonempty then
    let overlap := aw ∩ tw
    if overlap.Nonempty then min ((overlap.card : ℚ) * 5) 15 else 0
  else 0

/-- The ordered main-category loop of
`_calculate_product_type_compatibility`, returning at the first category
with a subcategory signal and falling back to the semantic check. -/
def compatGroupLoop (amazon_types target_types : Finset String) :
    List (String × List (String × List String)) → ℚ
  | [] => check_semantic_similarity amazon_types target_types
  | (_, subs) :: rest =>
    let am := subcatMatches amazon_types subs
    let tm := subcatMatches target_types subs
    if am.any (fun n => tm.contains n) then 30
    else if !am.isEmpty && !tm.isEmpty then 20
    else compatGroupLoop amazon_types target_types rest

/-- `ProductMatchingScorer._calculate_product_type_compatibility`. -/
def calculate_product_type_compatibility
    (amazon_types target_types : Finset String) : ℚ :=
  if (amazon_types ∩ target_types).Nonempty then 35
  else compatGroupLoop amazon_types target_types compatibility_groups

/-- `ProductMatchingScorer._check_furniture_compatibility`. -/
def check_furniture_compatibility (amazon target : PyDict) : ℚ :=
  let ta := pyLower (extract_text_safely amazon ["title", "basic_info.name"])
  let tt := pyLower (extract_text_safely target ["basic_info.name", "title"])
  let atypes := extract_universal_product_types ta
  let ttypes := extract_universal_product_types tt
  if atypes = ∅ ∨ ttypes = ∅ then 0
  else calculate_product_type_compatibility atypes ttypes

/-- One step of `calculate_match_score`: a signal with a positive value is
added to the running total and appended to the breakdown. -/
def addSignal (st : ℚ × List (String × ℚ)) (sig : String × ℚ) :
    ℚ × List (String × ℚ) :=
  if 0 < sig.2 then (st.1 + sig.2, st.2 ++ [sig]) else st

/-- The twelve signals of `calculate_match_score`, in source order with
their breakdown keys. -/
def signalList (amazon target : PyDict) : List (String × ℚ) :=
  [("upc_match", check_upc_match amazon target),
   ("model_match", check_model_match amazon target),
   ("brand_match", check_brand_match amazon target),
   ("title_similarity", check_title_similarity amazon target),
   ("dimensions_match", check_dimensions_match amazon target),
   ("weight_match", check_weight_match amazon target),
   ("price_match", check_price_match amazon target),
   ("category_match", check_category_match amazon target),
   ("color_match", check_color_match amazon target),
   ("material_match", check_material_match amazon target),
   ("feature_keywords", check_feature_keywords amazon target),
   ("product_compatibility", check_furniture_compatibility amazon target)]

/-- `ProductMatchingScorer.calculate_match_score`: returns the total score
and the breakdown (insertion-ordered key/value list). -/
def calculate_match_score (amazon target : PyDict) : ℚ × List (String × ℚ) :=
  (signalList amazon target).foldl addSignal (0, [])

/-- `ProductMatchingScorer.get_confidence_level`. -/
def get_confidence_level (score : ℚ) : String :=
  if 120 ≤ score then "Very High"
  else if 80 ≤ score then "High"
  else if 50 ≤ score then "Medium"
  else if 25 ≤ score then "Low"
  else if 10 ≤ score then "Very Low"
  else "No Match"

/-- The `MatchingResult` dataclass (the wall-clock timestamp is outside
the scoring semantics and omitted). -/
structure MatchingResult where
  amazon_product : PyDict
  target_product : PyDict
  match_score : ℚ
  score_breakdown : List (String × ℚ)
  confidence : String

/-- One pair comparison of the workflow loop. -/
def makeResult (amazon target : PyDict) : MatchingResult :=
  let st := calculate_match_score amazon target
  ⟨amazon, target, st.1, st.2, get_confidence_level st.1⟩

/-- The nested comparison loop of `run_complete_matching_workflow`
(amazon-major order over the two detailed product lists). -/
def compareAll (amazonList targetList : List PyDict) : List MatchingResult :=
  amazonList.flatMap (fun a => targetList.map (fun t => makeResult a t))

/-- Stable descending insertion: the new element goes after every earlier
element with a score at least as large. -/
def insertDesc (x : MatchingResult) : List MatchingResult → List MatchingResult
  | [] => [x]
  | y :: ys =>
    if x.match_score < y.match_score then y :: insertDesc x ys
    else x :: y :: ys

/-- Stable sort by descending `match_score`, modelling
`matching_results.sort(key=lambda x: x.match_score, reverse=True)`
(Python's sort is stable). -/
def sortDesc : List MatchingResult → List MatchingResult
  | [] => []
  | x :: xs => insertDesc x (sortDesc xs)

/-- The comparison-and-ranking phase of `run_complete_matching_workflow`:
all pairs, then the stable descending sort. -/
def run_comparison_loop (amazonList targetList : List PyDict) :
    List MatchingResult :=
  sortDesc (compareAll amazonList targetList)

/-! Helper lemmas about the aggregation fold. -/

/-- The fold of `addSignal` keeps the breakdown-sum invariant. -/
theorem foldl_addSignal_sum (l : List (String × ℚ)) :
    ∀ (t : ℚ) (bd : List (String × ℚ)), (bd.map Prod.snd).sum = t →
    (((l.foldl addSignal (t, bd)).2.map Prod.snd).sum =
      (l.foldl addSignal (t, bd)).1) := by
  induction l with
  | nil => intro t bd h; simpa using h
  | cons s rest ih =>
    intro t bd h
    simp only [List.foldl_cons, addSignal]
    by_cases hs : 0 < s.2
    · rw [if_pos hs]
      exact ih (t + s.2) (bd ++ [s]) (by simp [h])
    · rw [if_neg hs]
      exact ih t bd h

/-- C1: for every pair of product records, `calculate_match_score` returns
a total score equal to the sum of the values of the returned score
breakdown. -/
theorem c1_breakdown_sum (amazon target : PyDict) :
    (((calculate_match_score amazon target).2.map Prod.snd).sum =
      (calculate_match_score amazon target).1) := by
  exact foldl_addSignal_sum (signalList amazon target) 0 [] (by simp)

/-- C4: the confidence mapping realizes exactly the documented bands:
at least 120 is Very High, 80 to under 120 is High, 50 to under 80 is
Medium, 25 to under 50 is Low, 10 to under 25 is Very Low, and anything
lower is No Match. -/
theorem c4_confidence_bands (s : ℚ) :
    (120 ≤ s → get_confidence_level s = "Very High") ∧
    (80 ≤ s ∧ s < 120 → get_confidence_level s = "High") ∧
    (50 ≤ s ∧ s < 80 → get_confidence_level s = "Medium") ∧
    (25 ≤ s ∧ s < 50 → get_confidence_level s = "Low") ∧
    (10 ≤ s ∧ s < 25 → get_confidence_level s = "Very Low") ∧
    (s < 10 → get_confidence_level s = "No Match") := by
  unfold get_confidence_level
  refine ⟨fun h => ?_, fun h => ?_, fun h => ?_, fun h => ?_, fun h => ?_,
    fun h => ?_⟩
  · rw [if_pos h]
  · rw [if_neg (by linarith), if_pos h.1]
  · rw [if_neg (by linarith), if_neg (by linarith), if_pos h.1]
  · rw [if_neg (by linarith), if_neg (by linarith), if_neg (by linarith),
      if_pos h.1]
  · rw [if_neg (by linarith), if_neg (by linarith), if_neg (by linarith),
      if_neg (by linarith), if_pos h.1]
  · rw [if_neg (by linarith), if_neg (by linarith), if_neg (by linarith),
      if_neg (by linarith), if_neg (by linarith)]

/-- Witness for C4 at one concrete score in every band. -/
theorem c4_confidence_bands_witness :
    get_confidence_level 130 = "Very High" ∧
    get_confidence_level 90 = "High" ∧
    get_confidence_level 60 = "Medium" ∧
    get_confidence_level 30 = "Low" ∧
    get_confidence_level 15 = "Very Low" ∧
    get_confidence_level 5 = "No Match" :=
  ⟨(c4_confidence_bands 130).1 (by norm_num),
   (c4_confidence_bands 90).2.1 (by norm_num),
   (c4_confidence_bands 60).2.2.1 (by norm_num),
   (c4_confidence_bands 30).2.2.2.1 (by norm_num),
   (c4_confidence_bands 15).2.2.2.2.1 (by norm_num),
   (c4_confidence_bands 5).2.2.2.2.2 (by norm_num)⟩

/-! Concrete records for the price and weight boundary claims. -/

/-- A record whose only field is a current price of 100. -/
def rec_price_100 : PyDict :=
  [("pricing", JValue.obj [("current_price", JValue.num 100)])]

/-- A record whose only field is a current price of 119. -/
def rec_price_119 : PyDict :=
  [("pricing", JValue.obj [("current_price", JValue.num 119)])]

/-- A record whose only field is a current price of 121. -/
def rec_price_121 : PyDict :=
  [("pricing", JValue.obj [("current_price", JValue.num 121)])]

/-- A record whose only field is a current price of 126. -/
def rec_price_126 : PyDict :=
  [("pricing", JValue.obj [("current_price", JValue.num 126)])]

/-- C5 counterexample: the price comparator does not award 0 for prices
100 versus 121 — the code divides by the larger price, and
21/121 is below the 20 percent tolerance, so the signal fires. -/
theorem c5_price_counterexample :
    ¬ (check_price_match rec_price_100 rec_price_121 = 0) := by
  have ha : extract_price rec_price_100 = some 100 := by
    simp +decide [extract_price, probeFirst, price_paths, get_nested_value,
      splitDots, splitCharAux, getNestedAux, dictGet, rec_price_100, pyTruthy,
      pyStr, pyRepr, pyFloatRepr, findPowAux, natDecimalStr, natDecimalChars,
      natDecimalAux, priceScan, priceScanAux, priceRunVal, takeDigitsRun,
      digitsVal, pyIsDigitChar, padLeftZeros]
  have hb : extract_price rec_price_121 = some 121 := by
    simp +decide [extract_price, probeFirst, price_paths, get_nested_value,
      splitDots, splitCharAux, getNestedAux, dictGet, rec_price_121, pyTruthy,
      pyStr, pyRepr, pyFloatRepr, findPowAux, natDecimalStr, natDecimalChars,
      natDecimalAux, priceScan, priceScanAux, priceRunVal, takeDigitsRun,
      digitsVal, pyIsDigitChar, padLeftZeros]
  rw [check_price_match, ha, hb]
  norm_num +decide [sup_eq_max, max_def, abs_of_nonpos, scoring_weights]

/-- C5 amended: 100 versus 119 awards the 25 price points, and so does
100 versus 121 (relative difference 21/121, about 17.4 percent, measured
against the larger price); the signal is denied only when the difference
relative to the larger price exceeds 20 percent, for example 100 versus
126. -/
theorem c5_price_tolerance_amended :
    check_price_match rec_price_100 rec_price_119 = 25 ∧
    check_price_match rec_price_100 rec_price_121 = 25 ∧
    check_price_match rec_price_100 rec_price_126 = 0 := by
  have ha : extract_price rec_price_100 = some 100 := by
    simp +decide [extract_price, probeFirst, price_paths, get_nested_value,
      splitDots, splitCharAux, getNestedAux, dictGet, rec_price_100, pyTruthy,
      pyStr, pyRepr, pyFloatRepr, findPowAux, natDecimalStr, natDecimalChars,
      natDecimalAux, priceScan, priceScanAux, priceRunVal, takeDigitsRun,
      digitsVal, pyIsDigitChar, padLeftZeros]
  have h119 : extract_price rec_price_119 = some 119 := by
    simp +decide [extract_price, probeFirst, price_paths, get_nested_value,
      splitDots, splitCharAux, getNestedAux, dictGet, rec_price_119, pyTruthy,
      pyStr, pyRepr, pyFloatRepr, findPowAux, natDecimalStr, natDecimalChars,
      natDecimalAux, priceScan, priceScanAux, priceRunVal, takeDigitsRun,
      digitsVal, pyIsDigitChar, padLeftZeros]
  have h121 : extract_price rec_price_121 = some 121 := by
    simp +decide [extract_price, probeFirst, price_paths, get_nested_value,
      splitDots, splitCharAux, getNestedAux, dictGet, rec_price_121, pyTruthy,
      pyStr, pyRepr, pyFloatRepr, findPowAux, natDecimalStr, natDecimalChars,
      natDecimalAux, priceScan, priceScanAux, priceRunVal, takeDigitsRun,
      digitsVal, pyIsDigitChar, padLeftZeros]
  have h126 : extract_price rec_price_126 = some 126 := by
    simp +decide [extract_price, probeFirst, price_paths, get_nested_value,
      splitDots, splitCharAux, getNestedAux, dictGet, rec_price_126, pyTruthy,
      pyStr, pyRepr, pyFloatRepr, findPowAux, natDecimalStr, natDecimalChars,
      natDecimalAux, priceScan, priceScanAux, priceRunVal, takeDigitsRun,
      digitsVal, pyIsDigitChar, padLeftZeros]
  refine ⟨?_, ?_, ?_⟩
  · rw [check_price_match, ha, h119]
    norm_num +decide [sup_eq_max, max_def, abs_of_nonpos, scoring_weights]
  · rw [check_price_match, ha, h121]
    norm_num +decide [sup_eq_max, max_def, abs_of_nonpos, scoring_weights]
  · rw [check_price_match, ha, h126]
    norm_num +decide [sup_eq_max, max_def, abs_of_nonpos, scoring_weights]

/-- A record whose only field is a weight of 10.0. -/
def rec_weight_10 : PyDict :=
  [("physical_attributes", JValue.obj [("weight", JValue.num 10)])]

/-- A record whose only field is a weight of 10.9. -/
def rec_weight_10_9 : PyDict :=
  [("physical_attributes", JValue.obj [("weight", JValue.num (109 / 10 : ℚ))])]

/-- A record whose only field is a weight of 11.1. -/
def rec_weight_11_1 : PyDict :=
  [("physical_attributes", JValue.obj [("weight", JValue.num (111 / 10 : ℚ))])]

/-- A record whose only field is a weight of 11.2. -/
def rec_weight_11_2 : PyDict :=
  [("physical_attributes", JValue.obj [("weight", JValue.num (112 / 10 : ℚ))])]

/-- C6 counterexample: the weight comparator does not award 0 for weights
10.0 versus 11.1 — the code divides by the larger weight, and 1.1/11.1 is
below the 10 percent tolerance, so 30 points are awarded. -/
theorem c6_weight_counterexample :
    ¬ (check_weight_match rec_weight_10 rec_weight_11_1 = 0) := by
  have ha : extract_weight rec_weight_10 = some 10 := by
    simp +decide [extract_weight, probeFirst, weight_paths, get_nested_value,
      splitDots, splitCharAux, getNestedAux, dictGet, rec_weight_10, pyTruthy,
      pyFloatOf]
  have hb : extract_weight rec_weight_11_1 = some (111 / 10) := by
    simp +decide [extract_weight, probeFirst, weight_paths, get_nested_value,
      splitDots, splitCharAux, getNestedAux, dictGet, rec_weight_11_1, pyTruthy,
      pyFloatOf]
  rw [check_weight_match, ha, hb]
  norm_num +decide [sup_eq_max, max_def, abs_of_nonpos, scoring_weights]

/-- C6 amended: 10.0 versus 10.0 awards 50 points and 10.0 versus 10.9
awards 30 points as claimed, but 10.0 versus 11.1 also awards 30 points
(relative difference 1.1/11.1, about 9.9 percent, measured against the
larger weight); 0 points require exceeding 10 percent of the larger
weight, for example 10.0 versus 11.2. -/
theorem c6_weight_tolerance_amended :
    check_weight_match rec_weight_10 rec_weight_10 = 50 ∧
    check_weight_match rec_weight_10 rec_weight_10_9 = 30 ∧
    check_weight_match rec_weight_10 rec_weight_11_1 = 30 ∧
    check_weight_match rec_weight_10 rec_weight_11_2 = 0 := by
  have ha : extract_weight rec_weight_10 = some 10 := by
    simp +decide [extract_weight, probeFirst, weight_paths, get_nested_value,
      splitDots, splitCharAux, getNestedAux, dictGet, rec_weight_10, pyTruthy,
      pyFloatOf]
  have h109 : extract_weight rec_weight_10_9 = some (109 / 10) := by
    simp +decide [extract_weight, probeFirst, weight_paths, get_nested_value,
      splitDots, splitCharAux, getNestedAux, dictGet, rec_weight_10_9, pyTruthy,
      pyFloatOf]
  have h111 : extract_weight rec_weight_11_1 = some (111 / 10) := by
    simp +decide [extract_weight, probeFirst, weight_paths, get_nested_value,
      splitDots, splitCharAux, getNestedAux, dictGet, rec_weight_11_1, pyTruthy,
      pyFloatOf]
  have h112 : extract_weight rec_weight_11_2 = some (112 / 10) := by
    simp +decide [extract_weight, probeFirst, weight_paths, get_nested_value,
      splitDots, splitCharAux, getNestedAux, dictGet, rec_weight_11_2, pyTruthy,
      pyFloatOf]
  refine ⟨?_, ?_, ?_, ?_⟩
  · rw [check_weight_match, ha]
    norm_num +decide [sup_eq_max, max_def, abs_of_nonpos, scoring_weights]
  · rw [check_weight_match, ha, h109]
    norm_num +decide [sup_eq_max, max_def, abs_of_nonpos, scoring_weights]
  · rw [check_weight_match, ha, h111]
    norm_num +decide [sup_eq_max, max_def, abs_of_nonpos, scoring_weights]
  · rw [check_weight_match, ha, h112]
    norm_num +decide [sup_eq_max, max_def, abs_of_nonpos, scoring_weights]

/-! Helper lemmas about string concatenation and the field-resolver fold. -/

/-- The character data of an appended string. -/
theorem str_data_append (a b : String) : (a ++ b).data = a.data ++ b.data := rfl

/-- Strings with equal character data are equal. -/
theorem str_data_ext {a b : String} (h : a.data = b.data) : a = b := by
  cases a; cases b; exact congrArg String.mk h

/-- Appending the empty string on the right is the identity. -/
theorem str_append_empty (s : String) : s ++ "" = s := by
  apply str_data_ext
  rw [str_data_append]
  simp

/-- String append is associative. -/
theorem str_append_assoc (a b c : String) : a ++ b ++ c = a ++ (b ++ c) := by
  apply str_data_ext
  simp [str_data_append]

/-- The space-prefixed concatenation of the usable candidate values, the
shape `_extract_text_safely` accumulates before stripping. -/
def joinCandidates : List String → String
  | [] => ""
  | v :: vs => " " ++ v ++ joinCandidates vs

/-- The accumulation fold of `_extract_text_safely` equals the starting
accumulator followed by the concatenation of all usable candidates. -/
theorem foldl_text_eq (r : PyDict) (paths : List String) : ∀ acc : String,
    paths.foldl (fun acc p =>
      match resolveCandidate r p with
      | some v => acc ++ " " ++ v
      | none => acc) acc =
    acc ++ joinCandidates (paths.filterMap (resolveCandidate r)) := by
  induction paths with
  | nil => intro acc; simp [joinCandidates, str_append_empty]
  | cons p ps ih =>
    intro acc
    rw [List.foldl_cons, List.filterMap_cons]
    cases h : resolveCandidate r p with
    | none => simpa [h] using ih acc
    | some v =>
      simp only [h]
      rw [ih (acc ++ " " ++ v), joinCandidates, str_append_assoc,
        str_append_assoc, str_append_assoc]

/-- The record used in the C2 counterexample: two sibling string fields. -/
def rec_two_fields : PyDict := [("a", JValue.str "X"), ("b", JValue.str "Y")]

/-- C2 counterexample: with two candidate paths that both resolve, the
resolver returns the lower-cased concatenation of both values, not the
first usable value alone. -/
theorem c2_resolver_counterexample :
    extract_text_safely rec_two_fields ["a", "b"] = "x y" ∧
    ("x y" : String) ≠ "x" := by decide

/-- C2 amended: the resolver walks the candidate paths in order, treats a
missing key, a non-dict in the middle of a path, a `None` or any
non-string or empty final value as a failed candidate, never raises, and
returns the empty string when every candidate fails — but when several
candidates succeed it returns the stripped, lower-cased, space-joined
concatenation of all their values, not only the first one. -/
theorem c2_resolver_amended (r : PyDict) (paths : List String) :
    extract_text_safely r paths =
      pyLower (pyStrip (joinCandidates (paths.filterMap (resolveCandidate r)))) ∧
    (paths.filterMap (resolveCandidate r) = [] →
      extract_text_safely r paths = "") := by
  have hbase : extract_text_safely r paths =
      pyLower (pyStrip (joinCandidates (paths.filterMap (resolveCandidate r)))) := by
    rw [extract_text_safely, foldl_text_eq]
    have : ("" : String) ++
        joinCandidates (paths.filterMap (resolveCandidate r)) =
        joinCandidates (paths.filterMap (resolveCandidate r)) := by
      apply str_data_ext
      rw [str_data_append]
      simp
    rw [this]
  refine ⟨hbase, fun h => ?_⟩
  rw [hbase, h]
  rfl

/-- Witness for C2 amended at a concrete record and path list with no
usable candidate. -/
theorem c2_resolver_amended_witness :
    extract_text_safely [] ["a"] = "" :=
  (c2_resolver_amended [] ["a"]).2 (by decide)

/-! Helper lemmas for the feature-keyword comparator. -/

/-- The feature score always equals five points per shared cleaned
feature token. -/
theorem feature_score_eq_card (amazon target : PyDict) :
    check_feature_keywords amazon target =
      ((extract_features amazon ∩ extract_features target).card : ℚ) * 5 := by
  unfold check_feature_keywords
  by_cases h1 : extract_features amazon = ∅
  · simp [h1]
  · by_cases h2 : extract_features target = ∅
    · simp [h2]
    · rw [if_neg (by tauto)]
      norm_num +decide [scoring_weights]

/-- A family of feature strings of pairwise distinct lengths. -/
def featToken (i : Nat) : String := String.mk (List.replicate (i + 4) 'a')

/-- A record with `M` distinct long feature strings under
`product_details.highlights`. -/
def big_feature_rec (M : Nat) : PyDict :=
  [("product_details", JValue.obj
    [("highlights", JValue.list
      ((List.range M).map (fun i => JValue.str (featToken i))))])]

/-- The feature tokens are injective (their lengths differ). -/
theorem featToken_injective : Function.Injective featToken := by
  intro i j h
  have hlen : (featToken i).data.length = (featToken j).data.length := by rw [h]
  simpa [featToken] using hlen

/-- The cleaned feature set of `big_feature_rec M` is exactly the token
family (every token is long and non-numeric, so the filter keeps all). -/
theorem big_feature_rec_features (M : Nat) (h : 0 < M) :
    extract_features (big_feature_rec M) =
      ((List.range M).map featToken).toFinset := by
  have hraw : gatherFromPaths featureVals (big_feature_rec M) feature_paths =
      (List.range M).map featToken := by
    have hne : (((List.range M).map (fun i => JValue.str (featToken i))).isEmpty) = false := by
      rw [List.isEmpty_eq_false]
      simp [List.map_eq_nil_iff, List.range_eq_nil]
      omega
    simp +decide [gatherFromPaths, feature_paths, get_nested_value, splitDots,
      splitCharAux, getNestedAux, dictGet, big_feature_rec, pyTruthy, hne,
      featureVals, pyStr]
    intro i _
    apply str_data_ext
    simp [pyLower, featToken, asciiLowerChar]
  rw [extract_features, hraw]
  apply Finset.filter_true_of_mem
  intro x hx
  rw [List.mem_toFinset, List.mem_map] at hx
  obtain ⟨i, _, rfl⟩ := hx
  constructor
  · show 3 < (featToken i).data.length
    simp [featToken]
  · rw [pyIsdigitStr]
    have : (featToken i).data.all pyIsDigitChar = false := by
      rw [List.all_eq_false]
      exact ⟨'a', by simp [featToken], by decide⟩
    simp [this]

/-- C10: the feature-keyword comparator scores exactly five points per
token shared by both cleaned feature sets; the cleaning never keeps a
token of length three or less, nor a pure digit string; and the signal is
unbounded. -/
theorem c10_feature_keywords :
    (∀ amazon target : PyDict,
      check_feature_keywords amazon target =
        ((extract_features amazon ∩ extract_features target).card : ℚ) * 5) ∧
    (∀ r : PyDict, ∀ t ∈ extract_features r,
      3 < t.length ∧ pyIsdigitStr t = false) ∧
    (∀ N : ℕ, ∃ amazon target : PyDict,
      (N : ℚ) < check_feature_keywords amazon target) := by
  refine ⟨feature_score_eq_card, fun r t ht => ?_, fun N => ?_⟩
  · rw [extract_features, Finset.mem_filter] at ht
    exact ht.2
  · refine ⟨big_feature_rec (N + 1), big_feature_rec (N + 1), ?_⟩
    rw [feature_score_eq_card, big_feature_rec_features (N + 1) (by omega),
      Finset.inter_self]
    have hcard : (((List.range (N + 1)).map featToken).toFinset).card = N + 1 := by
      rw [List.toFinset_card_of_nodup ((List.nodup_range _).map featToken_injective)]
      simp
    rw [hcard]
    push_cast
    linarith

/-- Witness for C10 at a concrete record: the kept token "gtin" satisfies
the cleaning predicate. -/
theorem c10_feature_keywords_witness :
    3 < ("gtin" : String).length ∧ pyIsdigitStr "gtin" = false :=
  c10_feature_keywords.2.1 [("specifications", JValue.obj
    [("gtin", JValue.str "foo")])] "gtin" (by decide)

/-! Helper lemmas for the ranking loop. -/

/-- The cross-product loop yields one result per source/target pair. -/
theorem compareAll_length (A B : List PyDict) :
    (compareAll A B).length = A.length * B.length := by
  induction A with
  | nil => simp [compareAll]
  | cons a as ih =>
    simp only [compareAll, List.flatMap_cons, List.length_append,
      List.length_map, List.length_cons] at ih ⊢
    rw [ih]
    ring

/-- Stable descending insertion is a permutation step. -/
theorem insertDesc_perm (x : MatchingResult) (l : List MatchingResult) :
    (insertDesc x l).Perm (x :: l) := by
  induction l with
  | nil => rfl
  | cons y ys ih =>
    rw [insertDesc]
    by_cases h : x.match_score < y.match_score
    · rw [if_pos h]
      exact (ih.cons y).trans (List.Perm.swap x y ys)
    · rw [if_neg h]

/-- The stable descending sort permutes its input. -/
theorem sortDesc_perm (l : List MatchingResult) : (sortDesc l).Perm l := by
  induction l with
  | nil => rfl
  | cons x xs ih => exact (insertDesc_perm x (sortDesc xs)).trans (ih.cons x)

/-- Inserting into a descending-sorted list keeps it sorted. -/
theorem insertDesc_sorted (x : MatchingResult) (l : List MatchingResult)
    (h : List.Pairwise (fun p q => q.match_score ≤ p.match_score) l) :
    List.Pairwise (fun p q => q.match_score ≤ p.match_score) (insertDesc x l) := by
  induction l with
  | nil => simp [insertDesc]
  | cons y ys ih =>
    rw [insertDesc]
    rw [List.pairwise_cons] at h
    by_cases hxy : x.match_score < y.match_score
    · rw [if_pos hxy]
      rw [List.pairwise_cons]
      constructor
      · intro z hz
        rcases List.mem_cons.mp ((insertDesc_perm x ys).mem_iff.mp hz) with rfl | hzys
        · exact le_of_lt hxy
        · exact h.1 z hzys
      · exact ih h.2
    · rw [if_neg hxy]
      rw [List.pairwise_cons]
      refine ⟨fun z hz => ?_, List.pairwise_cons.mpr h⟩
      rcases List.mem_cons.mp hz with rfl | hzys
      · exact le_of_not_lt hxy
      · exact le_trans (h.1 z hzys) (le_of_not_lt hxy)

/-- The stable descending sort produces a descending-sorted list. -/
theorem sortDesc_sorted (l : List MatchingResult) :
    List.Pairwise (fun p q => q.match_score ≤ p.match_score) (sortDesc l) := by
  induction l with
  | nil => exact List.Pairwise.nil
  | cons x xs ih => exact insertDesc_sorted x (sortDesc xs) ih

/-- Stability of the insertion: restricted to any fixed score, the
insertion appends the new element in front of none of the earlier
equal-score elements (the passed-over elements all have strictly larger
scores). -/
theorem filter_insertDesc (x : MatchingResult) (l : List MatchingResult) (s : ℚ) :
    (insertDesc x l).filter (fun m => decide (m.match_score = s)) =
      if x.match_score = s then
        x :: l.filter (fun m => decide (m.match_score = s))
      else l.filter (fun m => decide (m.match_score = s)) := by
  induction l with
  | nil =>
    by_cases hxs : x.match_score = s
    · simp [insertDesc, hxs]
    · simp [insertDesc, hxs]
  | cons y ys ih =>
    rw [insertDesc]
    by_cases hxy : x.match_score < y.match_score
    · rw [if_pos hxy]
      by_cases hxs : x.match_score = s
      · have hys : ¬ (y.match_score = s) := by
          intro hcontra
          rw [← hxs] at hcontra
          exact absurd hcontra (ne_of_gt hxy)
        simp only [List.filter_cons, hys, decide_eq_true_eq, if_neg hys, ih,
          if_pos hxs, decide_False]
        simp [hys]
      · simp only [List.filter_cons, ih, if_neg hxs]
    · rw [if_neg hxy]
      by_cases hxs : x.match_score = s
      · simp [List.filter_cons, hxs]
      · simp [List.filter_cons, hxs]

/-- Stability of the sort: the elements of any fixed score appear in the
sorted output in their original order. -/
theorem filter_sortDesc (l : List MatchingResult) (s : ℚ) :
    (sortDesc l).filter (fun m => decide (m.match_score = s)) =
      l.filter (fun m => decide (m.match_score = s)) := by
  induction l with
  | nil => rfl
  | cons x xs ih =>
    rw [sortDesc, filter_insertDesc]
    by_cases hxs : x.match_score = s
    · simp [List.filter_cons, hxs, ih]
    · simp [List.filter_cons, hxs, ih]

/-- C9: on any source and target lists the comparison loop produces
exactly `n * m` results — a permutation of the source-major cross
product — sorted by descending total score, and elements of equal score
keep their original first-seen order (source index first, then target
index, the order of the cross product). -/
theorem c9_ranking (A B : List PyDict) :
    (run_comparison_loop A B).length = A.length * B.length ∧
    (run_comparison_loop A B).Perm (compareAll A B) ∧
    List.Pairwise (fun p q => q.match_score ≤ p.match_score)
      (run_comparison_loop A B) ∧
    (∀ s : ℚ,
      (run_comparison_loop A B).filter (fun m => decide (m.match_score = s)) =
        (compareAll A B).filter (fun m => decide (m.match_score = s))) := by
  refine ⟨?_, ?_, ?_, ?_⟩
  · rw [run_comparison_loop, (sortDesc_perm (compareAll A B)).length_eq]
    exact compareAll_length A B
  · exact sortDesc_perm (compareAll A B)
  · exact sortDesc_sorted (compareAll A B)
  · intro s
    exact filter_sortDesc (compareAll A B) s

/-! Helper lemmas for the absence-tolerance claim: every comparator
contributes zero when its amazon-side extraction is empty. -/

/-- No field the scorer probes resolves on the record (amazon side). -/
def NoResolvableField (a : PyDict) : Prop :=
  extract_text_safely a amazon_upc_paths = "" ∧
  extract_text_safely a amazon_model_paths = "" ∧
  extract_text_safely a ["brand", "basic_info.brand"] = "" ∧
  extract_text_safely a ["title", "basic_info.name"] = "" ∧
  extract_dimensions a = none ∧
  extract_weight a = none ∧
  extract_price a = none ∧
  extract_categories a = ∅ ∧
  extract_color a = none ∧
  extract_materials a = ∅ ∧
  extract_features a = ∅

/-- Keyword mining of an empty title yields no product types. -/
theorem ptk_of_empty : extract_product_type_keywords "" = ∅ := by decide

/-- Universal product-type mining of an empty title yields nothing. -/
theorem universal_types_of_empty : extract_universal_product_types "" = ∅ := by
  decide

/-- C8: scoring a record on which no field resolves returns a total of 0
with an empty breakdown, for every opposing record. -/
theorem c8_absence_tolerance (a b : PyDict) (h : NoResolvableField a) :
    calculate_match_score a b = (0, []) := by
  obtain ⟨h1, h2, h3, h4, h5, h6, h7, h8, h9, h10, h11⟩ := h
  have e1 : check_upc_match a b = 0 := by simp [check_upc_match, h1]
  have e2 : check_model_match a b = 0 := by simp [check_model_match, h2]
  have e3 : check_brand_match a b = 0 := by simp [check_brand_match, h3]
  have e4 : check_title_similarity a b = 0 := by
    simp [check_title_similarity, h4]
  have e5 : check_dimensions_match a b = 0 := by
    simp [check_dimensions_match, h5]
  have e6 : check_weight_match a b = 0 := by simp [check_weight_match, h6]
  have e7 : check_price_match a b = 0 := by simp [check_price_match, h7]
  have e8 : check_category_match a b = 0 := by
    rw [check_category_match]
    rw [h8, h4]
    simp [ptk_of_empty, pyLower]
  have e9 : check_color_match a b = 0 := by simp [check_color_match, h9]
  have e10 : check_material_match a b = 0 := by
    simp [check_material_match, h10]
  have e11 : check_feature_keywords a b = 0 := by
    simp [check_feature_keywords, h11]
  have e12 : check_furniture_compatibility a b = 0 := by
    rw [check_furniture_compatibility, h4]
    simp [universal_types_of_empty, pyLower]
  rw [calculate_match_score, signalList, e1, e2, e3, e4, e5, e6, e7, e8, e9,
    e10, e11, e12]
  simp [addSignal]

/-- Witness for C8: the empty record scores zero against a record with a
title. -/
theorem c8_absence_tolerance_witness :
    calculate_match_score [] [("title", JValue.str "chair")] = (0, []) :=
  c8_absence_tolerance [] [("title", JValue.str "chair")]
    (by unfold NoResolvableField; decide)

/-! Helper lemmas and records for the symmetry claim. -/

/-- A record carrying its UPC under the amazon-side path
`specifications.upc`. -/
def rec_upc_amazon_side : PyDict :=
  [("specifications", JValue.obj [("upc", JValue.str "123456789")])]

/-- A record carrying the same UPC under the target-side path
`basic_info.upc`. -/
def rec_upc_target_side : PyDict :=
  [("basic_info", JValue.obj [("upc", JValue.str "123456789")])]

/-- With the same UPC stored platform-specifically, one argument order
scores 100 and the swapped order scores 0. -/
theorem score_not_symmetric_example :
    ¬ ((calculate_match_score rec_upc_amazon_side rec_upc_target_side).1 =
       (calculate_match_score rec_upc_target_side rec_upc_amazon_side).1) := by
  have s1 : check_upc_match rec_upc_amazon_side rec_upc_target_side = 100 := by
    decide
  have s2 : check_model_match rec_upc_amazon_side rec_upc_target_side = 0 := by
    decide
  have s3 : check_brand_match rec_upc_amazon_side rec_upc_target_side = 0 := by
    decide
  have s4 : check_title_similarity rec_upc_amazon_side rec_upc_target_side = 0 := by
    decide
  have s5 : check_dimensions_match rec_upc_amazon_side rec_upc_target_side = 0 := by
    decide
  have s6 : check_weight_match rec_upc_amazon_side rec_upc_target_side = 0 := by
    decide
  have s7 : check_price_match rec_upc_amazon_side rec_upc_target_side = 0 := by
    decide
  have s8 : check_category_match rec_upc_amazon_side rec_upc_target_side = 0 := by
    decide
  have s9 : check_color_match rec_upc_amazon_side rec_upc_target_side = 0 := by
    decide
  have s10 : check_material_match rec_upc_amazon_side rec_upc_target_side = 0 := by
    decide
  have s11 : check_feature_keywords rec_upc_amazon_side rec_upc_target_side = 0 := by
    decide
  have s12 : check_furniture_compatibility rec_upc_amazon_side rec_upc_target_side = 0 := by
    decide
  have t1 : check_upc_match rec_upc_target_side rec_upc_amazon_side = 0 := by
    decide
  have t2 : check_model_match rec_upc_target_side rec_upc_amazon_side = 0 := by
    decide
  have t3 : check_brand_match rec_upc_target_side rec_upc_amazon_side = 0 := by
    decide
  have t4 : check_title_similarity rec_upc_target_side rec_upc_amazon_side = 0 := by
    decide
  have t5 : check_dimensions_match rec_upc_target_side rec_upc_amazon_side = 0 := by
    decide
  have t6 : check_weight_match rec_upc_target_side rec_upc_amazon_side = 0 := by
    decide
  have t7 : check_price_match rec_upc_target_side rec_upc_amazon_side = 0 := by
    decide
  have t8 : check_category_match rec_upc_target_side rec_upc_amazon_side = 0 := by
    decide
  have t9 : check_color_match rec_upc_target_side rec_upc_amazon_side = 0 := by
    decide
  have t10 : check_material_match rec_upc_target_side rec_upc_amazon_side = 0 := by
    decide
  have t11 : check_feature_keywords rec_upc_target_side rec_upc_amazon_side = 0 := by
    decide
  have t12 : check_furniture_compatibility rec_upc_target_side rec_upc_amazon_side = 0 := by
    decide
  rw [calculate_match_score, calculate_match_score, signalList, signalList,
    s1, s2, s3, s4, s5, s6, s7, s8, s9, s10, s11, s12,
    t1, t2, t3, t4, t5, t6, t7, t8, t9, t10, t11, t12]
  norm_num [addSignal]

/-- C3 counterexample: the total score is not symmetric — with the same
UPC stored platform-specifically, one order scores 100 and the swapped
order scores 0, because each argument is probed with its own path list. -/
theorem c3_symmetry_counterexample :
    ¬ ((calculate_match_score rec_upc_amazon_side rec_upc_target_side).1 =
       (calculate_match_score rec_upc_target_side rec_upc_amazon_side).1) :=
  score_not_symmetric_example

/-- Key-skipping of `_dimensions_match` is symmetric in its two values. -/
theorem relOk_comm (v1 v2 tol : ℚ) : relOk v1 v2 tol = relOk v2 v1 tol := by
  unfold relOk
  rw [decide_eq_decide, abs_sub_comm, max_comm]
  tauto

/-- `_dimensions_match` is symmetric on dimension lists extracted from
dicts (the shared keys pair up the same values in both orders). -/
theorem dims_match_comm (kvs1 kvs2 : PyDict) (tol : ℚ) :
    dimensions_match (extractDimsFrom (JValue.obj kvs1))
      (extractDimsFrom (JValue.obj kvs2)) tol =
    dimensions_match (extractDimsFrom (JValue.obj kvs2))
      (extractDimsFrom (JValue.obj kvs1)) tol := by
  rcases h1 : dimVal kvs1 "length" with _ | x1 <;>
    rcases h2 : dimVal kvs1 "width" with _ | x2 <;>
      rcases h3 : dimVal kvs1 "height" with _ | x3 <;>
        rcases h4 : dimVal kvs2 "length" with _ | y1 <;>
          rcases h5 : dimVal kvs2 "width" with _ | y2 <;>
            rcases h6 : dimVal kvs2 "height" with _ | y3 <;>
  simp +decide [dimensions_match, extractDimsFrom, dim_keys, dimGet,
    List.filterMap, h1, h2, h3, h4, h5, h6, relOk_comm]

/-- A successful probe always produced its value through the reader. -/
theorem probeFirst_some_inv {α : Type} (f : JValue → Option α) :
    ∀ (paths : List String) (r : PyDict) (x : α),
    probeFirst f r paths = some x → ∃ v : JValue, f v = some x := by
  intro paths
  induction paths with
  | nil => intro r x h; simp [probeFirst] at h
  | cons p ps ih =>
    intro r x h
    rw [probeFirst] at h
    cases hg : get_nested_value r p with
    | none => rw [hg] at h; exact ih r x h
    | some v =>
      simp only [hg] at h
      by_cases ht : pyTruthy v
      · rw [if_pos ht] at h
        cases hf : f v with
        | none => rw [hf] at h; exact ih r x h
        | some y => rw [hf] at h; exact ⟨v, hf.trans h⟩
      · rw [if_neg ht] at h; exact ih r x h

/-- A successful `_extract_dimensions` always comes from a candidate dict. -/
theorem extract_dimensions_from_obj (r : PyDict) (d : List (String × ℚ))
    (h : extract_dimensions r = some d) :
    ∃ kvs : PyDict, d = extractDimsFrom (JValue.obj kvs) := by
  rw [extract_dimensions] at h
  obtain ⟨v, hv⟩ := probeFirst_some_inv _ dim_paths r d h
  by_cases hlen : 2 ≤ (extractDimsFrom v).length
  · rw [if_pos hlen] at hv
    cases v with
    | obj kvs => exact ⟨kvs, (Option.some_injective _ hv).symm⟩
    | str s => simp [extractDimsFrom] at hlen
    | num q => simp [extractDimsFrom] at hlen
    | list xs => simp [extractDimsFrom] at hlen
    | null => simp [extractDimsFrom] at hlen
  · rw [if_neg hlen] at hv
    exact absurd hv (by simp)

/-- The dimension comparator is symmetric. -/
theorem check_dimensions_match_comm (a b : PyDict) :
    check_dimensions_match a b = check_dimensions_match b a := by
  unfold check_dimensions_match
  cases hda : extract_dimensions a with
  | none => cases extract_dimensions b <;> rfl
  | some da =>
    cases hdb : extract_dimensions b with
    | none => rfl
    | some db =>
      obtain ⟨k1, rfl⟩ := extract_dimensions_from_obj a da hda
      obtain ⟨k2, rfl⟩ := extract_dimensions_from_obj b db hdb
      simp only [dims_match_comm k1 k2 0, dims_match_comm k1 k2 0.05]

/-- The weight comparator is symmetric. -/
theorem check_weight_match_comm (a b : PyDict) :
    check_weight_match a b = check_weight_match b a := by
  unfold check_weight_match
  cases extract_weight a with
  | none => cases extract_weight b <;> rfl
  | some wa =>
    cases extract_weight b with
    | none => rfl
    | some wb =>
      simp only [abs_sub_comm wa wb, max_comm wa wb]
      apply if_congr (by tauto) rfl rfl

/-- The price comparator is symmetric. -/
theorem check_price_match_comm (a b : PyDict) :
    check_price_match a b = check_price_match b a := by
  unfold check_price_match
  cases extract_price a with
  | none => cases extract_price b <;> rfl
  | some pa =>
    cases extract_price b with
    | none => rfl
    | some pb =>
      simp only [abs_sub_comm pa pb, max_comm pa pb]
      apply if_congr (by tauto) rfl rfl

/-- The color comparator is symmetric. -/
theorem check_color_match_comm (a b : PyDict) :
    check_color_match a b = check_color_match b a := by
  unfold check_color_match
  cases extract_color a with
  | none => cases extract_color b <;> rfl
  | some ca =>
    cases extract_color b with
    | none => rfl
    | some cb =>
      apply if_congr _ rfl rfl
      constructor
      · rintro ⟨u, v, w⟩; exact ⟨v, u, w.symm⟩
      · rintro ⟨u, v, w⟩; exact ⟨v, u, w.symm⟩

/-- The material comparator is symmetric. -/
theorem check_material_match_comm (a b : PyDict) :
    check_material_match a b = check_material_match b a := by
  simp only [check_material_match]
  apply if_congr ?_ rfl rfl
  constructor
  · rintro ⟨u, v, w⟩
    exact ⟨v, u, by rwa [Finset.inter_comm]⟩
  · rintro ⟨u, v, w⟩
    exact ⟨v, u, by rwa [Finset.inter_comm]⟩

/-- The feature-keyword comparator is symmetric. -/
theorem check_feature_keywords_comm (a b : PyDict) :
    check_feature_keywords a b = check_feature_keywords b a := by
  simp only [check_feature_keywords]
  apply if_congr (by tauto) rfl ?_
  rw [Finset.inter_comm]

/-- C3 amended: the comparators that resolve both sides through the same
path lists — price, weight, dimensions, color, material and feature
keywords — are symmetric, but `calculate_match_score` itself is not
symmetric in general, because the identifier, brand, title and
category/compatibility signals probe the two arguments with
platform-specific path lists. -/
theorem c3_symmetry_amended :
    (∀ a b : PyDict, check_price_match a b = check_price_match b a) ∧
    (∀ a b : PyDict, check_weight_match a b = check_weight_match b a) ∧
    (∀ a b : PyDict, check_dimensions_match a b = check_dimensions_match b a) ∧
    (∀ a b : PyDict, check_color_match a b = check_color_match b a) ∧
    (∀ a b : PyDict, check_material_match a b = check_material_match b a) ∧
    (∀ a b : PyDict, check_feature_keywords a b = check_feature_keywords b a) ∧
    (∃ a b : PyDict, (calculate_match_score a b).1 ≠ (calculate_match_score b a).1) :=
  ⟨check_price_match_comm, check_weight_match_comm, check_dimensions_match_comm,
   check_color_match_comm, check_material_match_comm,
   check_feature_keywords_comm,
   ⟨rec_upc_amazon_side, rec_upc_target_side, score_not_symmetric_example⟩⟩

/-! Infrastructure for the UPC-monotonicity claim: how the extractors
react to appending one fresh key to a record. -/

/-- The dict `{'upc': u}` added under an identifier path. -/
def upc_patch (u : String) : JValue := JValue.obj [("upc", JValue.str u)]

/-- Adding the UPC to the amazon-side record under `specifications.upc`
(a fresh `specifications` key is appended, as Python dict insertion does). -/
def add_amazon_upc (a : PyDict) (u : String) : PyDict :=
  a ++ [("specifications", upc_patch u)]

/-- Adding the UPC to the target-side record under `product_details.upc`. -/
def add_target_upc (b : PyDict) (u : String) : PyDict :=
  b ++ [("product_details", upc_patch u)]

/-- Lookup of a different key is unchanged by appending a binding. -/
theorem dictGet_append_ne (r : PyDict) (k k2 : String) (v : JValue)
    (h : k2 ≠ k) : dictGet (r ++ [(k, v)]) k2 = dictGet r k2 := by
  induction r with
  | nil => simp [dictGet, Ne.symm h]
  | cons kv rest ih =>
    by_cases hk : kv.1 = k2
    · simp [dictGet, hk]
    · simp [dictGet, hk, ih]

/-- Lookup of a previously missing key finds the appended binding. -/
theorem dictGet_append_self (r : PyDict) (k : String) (v : JValue)
    (h : dictGet r k = none) : dictGet (r ++ [(k, v)]) k = some v := by
  induction r with
  | nil => simp [dictGet]
  | cons kv rest ih =>
    rw [dictGet] at h
    by_cases hk : kv.1 = k
    · rw [if_pos hk] at h
      exact absurd h (by simp)
    · rw [if_neg hk] at h
      simp [dictGet, hk, ih h]

/-- The text walk is constant on a string start. -/
theorem walk_str_empty (ks : List String) :
    walkTextAux (JValue.str "") ks = JValue.str "" := by
  cases ks <;> rfl

/-- The text walk along a path starting at a different key is unchanged by
the appended binding. -/
theorem walk_append_ne (r : PyDict) (k k2 : String) (v : JValue)
    (ks : List String) (h : k2 ≠ k) :
    walkTextAux (JValue.obj (r ++ [(k, v)])) (k2 :: ks) =
      walkTextAux (JValue.obj r) (k2 :: ks) := by
  simp only [walkTextAux, dictGet_append_ne r k k2 v h]

/-- The strict walk along a path starting at a different key is unchanged
by the appended binding. -/
theorem aux_append_ne (r : PyDict) (k k2 : String) (v : JValue)
    (ks : List String) (h : k2 ≠ k) :
    getNestedAux (JValue.obj (r ++ [(k, v)])) (k2 :: ks) =
      getNestedAux (JValue.obj r) (k2 :: ks) := by
  simp only [getNestedAux, dictGet_append_ne r k k2 v h]

/-- The text walk along a missing key yields the empty string. -/
theorem walk_key_missing (r : PyDict) (k : String) (ks : List String)
    (h : dictGet r k = none) :
    walkTextAux (JValue.obj r) (k :: ks) = JValue.str "" := by
  simp only [walkTextAux, h, Option.getD_none]
  exact walk_str_empty ks

/-- The strict walk along a missing key fails. -/
theorem aux_key_missing (r : PyDict) (k : String) (ks : List String)
    (h : dictGet r k = none) :
    getNestedAux (JValue.obj r) (k :: ks) = none := by
  simp only [getNestedAux, h]

/-- The text walk into the patch dict along any key other than `upc`
yields the empty string. -/
theorem walk_patch_other (u : String) (k2 : String) (ks : List String)
    (h : k2 ≠ "upc") : walkTextAux (upc_patch u) (k2 :: ks) = JValue.str "" := by
  rw [upc_patch]
  have hget : dictGet [("upc", JValue.str u)] k2 = none := by
    simp [dictGet, Ne.symm h]
  simp only [walkTextAux, hget, Option.getD_none]
  exact walk_str_empty ks

/-- The text walk through the appended key continues inside the patch. -/
theorem walk_append_self (r : PyDict) (k u : String) (ks : List String)
    (h : dictGet r k = none) :
    walkTextAux (JValue.obj (r ++ [(k, upc_patch u)])) (k :: ks) =
      walkTextAux (upc_patch u) ks := by
  simp only [walkTextAux, dictGet_append_self r k _ h, Option.getD_some]

/-- The strict walk through the appended key continues inside the patch. -/
theorem aux_append_self (r : PyDict) (k u : String) (ks : List String)
    (h : dictGet r k = none) :
    getNestedAux (JValue.obj (r ++ [(k, upc_patch u)])) (k :: ks) =
      getNestedAux (upc_patch u) ks := by
  simp only [getNestedAux, dictGet_append_self r k _ h]

/-- The path splitter never returns an empty list. -/
theorem splitCharAux_ne_nil (sep : Char) :
    ∀ (l : List Char) (acc : List Char), splitCharAux sep l acc ≠ [] := by
  intro l
  induction l with
  | nil => intro acc; simp [splitCharAux]
  | cons c cs ih =>
    intro acc
    rw [splitCharAux]
    by_cases hc : c = sep
    · rw [if_pos hc]; simp
    · rw [if_neg hc]; exact ih _

/-- A candidate path starting at a different key resolves identically on
the patched record. -/
theorem resolveCandidate_append (r : PyDict) (k : String) (v : JValue)
    (p : String) (h : (splitDots p).headD "" ≠ k) :
    resolveCandidate (r ++ [(k, v)]) p = resolveCandidate r p := by
  cases hs : splitDots p with
  | nil => exact absurd hs (splitCharAux_ne_nil '.' p.data [])
  | cons k2 ks =>
    rw [resolveCandidate, resolveCandidate, hs,
      walk_append_ne r k k2 v ks (by rw [hs] at h; simpa using h)]

/-- A nested lookup along a path starting at a different key is identical
on the patched record. -/
theorem get_nested_append (r : PyDict) (k : String) (v : JValue)
    (p : String) (h : (splitDots p).headD "" ≠ k) :
    get_nested_value (r ++ [(k, v)]) p = get_nested_value r p := by
  cases hs : splitDots p with
  | nil => exact absurd hs (splitCharAux_ne_nil '.' p.data [])
  | cons k2 ks =>
    rw [get_nested_value, get_nested_value, hs,
      aux_append_ne r k k2 v ks (by rw [hs] at h; simpa using h)]

/-- A two-segment candidate path through the patch but not ending in
`upc` resolves to nothing on both the patched and the original record. -/
theorem resolveCandidate_patch_deep (r : PyDict) (k u p k2 : String)
    (ks : List String) (hr : dictGet r k = none)
    (hsplit : splitDots p = k :: k2 :: ks) (hk2 : k2 ≠ "upc") :
    resolveCandidate (r ++ [(k, upc_patch u)]) p = none ∧
    resolveCandidate r p = none := by
  constructor
  · rw [resolveCandidate, hsplit, walk_append_self r k u _ hr,
      walk_patch_other u k2 ks hk2]
    simp
  · rw [resolveCandidate, hsplit, walk_key_missing r k _ hr]
    simp

/-- The candidate path `k.upc` resolves to the added UPC on the patched
record. -/
theorem resolveCandidate_patch_upc (r : PyDict) (k u p : String)
    (hr : dictGet r k = none) (hsplit : splitDots p = [k, "upc"])
    (hu : u ≠ "") :
    resolveCandidate (r ++ [(k, upc_patch u)]) p = some u := by
  rw [resolveCandidate, hsplit, walk_append_self r k u _ hr]
  simp [upc_patch, walkTextAux, dictGet, hu]

/-- A two-segment nested lookup through the patch but not ending in `upc`
fails on both the patched and the original record. -/
theorem get_nested_patch_deep (r : PyDict) (k u p k2 : String)
    (ks : List String) (hr : dictGet r k = none)
    (hsplit : splitDots p = k :: k2 :: ks) (hk2 : k2 ≠ "upc") :
    get_nested_value (r ++ [(k, upc_patch u)]) p = none ∧
    get_nested_value r p = none := by
  constructor
  · rw [get_nested_value, hsplit, aux_append_self r k u _ hr]
    rw [upc_patch]
    have hget : dictGet [("upc", JValue.str u)] k2 = none := by
      simp [dictGet, Ne.symm hk2]
    simp [getNestedAux, hget]
  · rw [get_nested_value, hsplit, aux_key_missing r k _ hr]

/-- A single-segment nested lookup of the appended key returns the patch
on the patched record and fails on the original. -/
theorem get_nested_patch_top (r : PyDict) (k u p : String)
    (hr : dictGet r k = none) (hsplit : splitDots p = [k]) :
    get_nested_value (r ++ [(k, upc_patch u)]) p = some (upc_patch u) ∧
    get_nested_value r p = none := by
  constructor
  · rw [get_nested_value, hsplit, aux_append_self r k u _ hr]
    rfl
  · rw [get_nested_value, hsplit, aux_key_missing r k _ hr]

/-- Congruence for `filterMap` under pointwise agreement. -/
theorem filterMap_congr_mem {α β : Type} (f g : α → Option β) :
    ∀ l : List α, (∀ a ∈ l, f a = g a) → l.filterMap f = l.filterMap g := by
  intro l
  induction l with
  | nil => intro _; rfl
  | cons x xs ih =>
    intro h
    rw [List.filterMap_cons, List.filterMap_cons, h x (List.mem_cons_self x xs)]
    cases g x <;> rw [ih (fun a ha => h a (List.mem_cons_of_mem x ha))]

/-- Congruence for the field resolver under pointwise agreement of the
candidate resolutions. -/
theorem extract_text_congr (r1 r2 : PyDict) (paths : List String)
    (h : ∀ p ∈ paths, resolveCandidate r1 p = resolveCandidate r2 p) :
    extract_text_safely r1 paths = extract_text_safely r2 paths := by
  rw [extract_text_safely, extract_text_safely, foldl_text_eq, foldl_text_eq,
    filterMap_congr_mem _ _ paths h]

/-- The field resolver returns the empty string when no candidate
resolves. -/
theorem extract_text_none (r : PyDict) (paths : List String)
    (h : ∀ p ∈ paths, resolveCandidate r p = none) :
    extract_text_safely r paths = "" := by
  rw [extract_text_safely, foldl_text_eq,
    filterMap_congr_mem (resolveCandidate r) (fun _ => none) paths h]
  have hnil : paths.filterMap (fun _ => (none : Option String)) = [] := by
    simp
  rw [hnil]
  rfl

/-- Congruence for the first-success probe under pointwise agreement of
the nested lookups. -/
theorem probeFirst_congr {α : Type} (f : JValue → Option α) (r1 r2 : PyDict) :
    ∀ paths : List String,
    (∀ p ∈ paths, get_nested_value r1 p = get_nested_value r2 p) →
    probeFirst f r1 paths = probeFirst f r2 paths := by
  intro paths
  induction paths with
  | nil => intro _; rfl
  | cons p ps ih =>
    intro h
    have hp := h p (List.mem_cons_self p ps)
    have hps : ∀ q ∈ ps, get_nested_value r1 q = get_nested_value r2 q :=
      fun q hq => h q (List.mem_cons_of_mem p hq)
    rw [probeFirst, probeFirst, hp]
    cases get_nested_value r2 p with
    | none => exact ih hps
    | some v =>
      by_cases ht : pyTruthy v
      · simp only [if_pos ht]
        cases f v with
        | some x => rfl
        | none => exact ih hps
      · simp only [if_neg ht]
        exact ih hps

/-- Congruence for the gather fold under pointwise agreement of the
nested lookups. -/
theorem gatherFromPaths_congr (f : JValue → List String) (r1 r2 : PyDict) :
    ∀ paths : List String,
    (∀ p ∈ paths, get_nested_value r1 p = get_nested_value r2 p) →
    gatherFromPaths f r1 paths = gatherFromPaths f r2 paths := by
  have key : ∀ (paths : List String) (acc : List String),
      (∀ p ∈ paths, get_nested_value r1 p = get_nested_value r2 p) →
      paths.foldl (fun acc p =>
        match get_nested_value r1 p with
        | some v => if pyTruthy v then acc ++ f v else acc
        | none => acc) acc =
      paths.foldl (fun acc p =>
        match get_nested_value r2 p with
        | some v => if pyTruthy v then acc ++ f v else acc
        | none => acc) acc := by
    intro paths
    induction paths with
    | nil => intro _ _; rfl
    | cons p ps ih =>
      intro acc h
      have hp := h p (List.mem_cons_self p ps)
      have hps : ∀ q ∈ ps, get_nested_value r1 q = get_nested_value r2 q :=
        fun q hq => h q (List.mem_cons_of_mem p hq)
      rw [List.foldl_cons, List.foldl_cons, hp]
      exact ih _ hps
  intro paths h
  exact key paths [] h

/-- The gather fold from any accumulator is the accumulator followed by
the gather from the empty one. -/
theorem gather_fold_shift (f : JValue → List String) (r : PyDict) :
    ∀ (paths : List String) (acc : List String),
    paths.foldl (fun acc p =>
      match get_nested_value r p with
      | some v => if pyTruthy v then acc ++ f v else acc
      | none => acc) acc =
    acc ++ gatherFromPaths f r paths := by
  intro paths
  induction paths with
  | nil => intro acc; rw [gatherFromPaths]; simp
  | cons p ps ih =>
    intro acc
    rw [gatherFromPaths, List.foldl_cons, List.foldl_cons]
    cases get_nested_value r p with
    | none =>
      rw [ih acc, ih [], List.nil_append]
    | some v =>
      by_cases ht : pyTruthy v
      · simp only [if_pos ht]
        rw [ih (acc ++ f v), ih ([] ++ f v), List.nil_append, List.append_assoc]
      · simp only [if_neg ht]
        rw [ih acc, ih [], List.nil_append]

/-- Lower-casing fixes a digit string. -/
theorem pyLower_digits (u : String) (h : u.data.all pyIsDigitChar = true) :
    pyLower u = u := by
  apply str_data_ext
  show u.data.map asciiLowerChar = u.data
  have : ∀ c ∈ u.data, asciiLowerChar c = c := by
    intro c hc
    have hd : pyIsDigitChar c = true := by
      rw [List.all_eq_true] at h
      exact h c hc
    rw [pyIsDigitChar] at hd
    simp only [Bool.and_eq_true, decide_eq_true_eq] at hd
    rw [asciiLowerChar, if_neg (by omega)]
  calc u.data.map asciiLowerChar = u.data.map id := List.map_congr_left this
    _ = u.data := List.map_id u.data

/-- Stripping a leading space off a digit string gives the string back. -/
theorem pyStrip_space_digits (u : String)
    (hd : u.data.all pyIsDigitChar = true) :
    pyStrip (" " ++ u) = u := by
  have hnws : ∀ c ∈ u.data, pyIsWs c = false := by
    intro c hc
    have h1 : pyIsDigitChar c = true := by
      rw [List.all_eq_true] at hd
      exact hd c hc
    rw [pyIsDigitChar] at h1
    simp only [Bool.and_eq_true, decide_eq_true_eq] at h1
    rw [pyIsWs]
    simp only [Bool.or_eq_false_iff, decide_eq_false_iff_not]
    omega
  have hhead : ∀ l : List Char, (∀ c ∈ l, pyIsWs c = false) → dropWsLeft l = l := by
    intro l hl
    cases l with
    | nil => rfl
    | cons c cs => rw [dropWsLeft, if_neg (by simp [hl c (List.mem_cons_self c cs)])]
  apply str_data_ext
  rw [pyStrip]
  show (dropWsLeft ((dropWsLeft (' ' :: u.data)).reverse)).reverse = u.data
  rw [dropWsLeft, if_pos (by decide), hhead u.data hnws,
    hhead u.data.reverse (fun c hc => hnws c (List.mem_reverse.mp hc)),
    List.reverse_reverse]

/-- Equality form of the deep-path candidate fact. -/
theorem resolve_patch_deep_eq (r : PyDict) (k u p k2 : String)
    (ks : List String) (hr : dictGet r k = none)
    (hsplit : splitDots p = k :: k2 :: ks) (hk2 : k2 ≠ "upc") :
    resolveCandidate (r ++ [(k, upc_patch u)]) p = resolveCandidate r p := by
  rw [(resolveCandidate_patch_deep r k u p k2 ks hr hsplit hk2).1,
    (resolveCandidate_patch_deep r k u p k2 ks hr hsplit hk2).2]

/-- Equality form of the deep-path nested-lookup fact. -/
theorem get_nested_patch_deep_eq (r : PyDict) (k u p k2 : String)
    (ks : List String) (hr : dictGet r k = none)
    (hsplit : splitDots p = k :: k2 :: ks) (hk2 : k2 ≠ "upc") :
    get_nested_value (r ++ [(k, upc_patch u)]) p = get_nested_value r p := by
  rw [(get_nested_patch_deep r k u p k2 ks hr hsplit hk2).1,
    (get_nested_patch_deep r k u p k2 ks hr hsplit hk2).2]

/-- After the patch, the amazon-side UPC extraction returns exactly the
added digit string. -/
theorem extract_upc_amazon_patched (a : PyDict) (u : String)
    (ha : dictGet a "specifications" = none)
    (hau : ∀ p ∈ amazon_upc_paths, resolveCandidate a p = none)
    (hdig : u.data.all pyIsDigitChar = true) (hne : u ≠ "") :
    extract_text_safely (add_amazon_upc a u) amazon_upc_paths = u := by
  have c1 : resolveCandidate (add_amazon_upc a u) "specifications.upc" = some u :=
    resolveCandidate_patch_upc a "specifications" u _ ha (by decide) hne
  have c2 : resolveCandidate (add_amazon_upc a u) "specifications.gtin" = none :=
    (resolveCandidate_patch_deep a "specifications" u _ "gtin" [] ha (by decide)
      (by decide)).1
  have c3 : resolveCandidate (add_amazon_upc a u) "specifications.ean" = none :=
    (resolveCandidate_patch_deep a "specifications" u _ "ean" [] ha (by decide)
      (by decide)).1
  have c4 : resolveCandidate (add_amazon_upc a u) "identifiers.upc" = none := by
    rw [add_amazon_upc,
      resolveCandidate_append a "specifications" (upc_patch u) "identifiers.upc" (by decide)]
    exact hau _ (by decide)
  have c5 : resolveCandidate (add_amazon_upc a u) "identifiers.gtin" = none := by
    rw [add_amazon_upc,
      resolveCandidate_append a "specifications" (upc_patch u) "identifiers.gtin" (by decide)]
    exact hau _ (by decide)
  have c6 : resolveCandidate (add_amazon_upc a u) "identifiers.ean" = none := by
    rw [add_amazon_upc,
      resolveCandidate_append a "specifications" (upc_patch u) "identifiers.ean" (by decide)]
    exact hau _ (by decide)
  have c7 : resolveCandidate (add_amazon_upc a u) "basic_info.upc" = none := by
    rw [add_amazon_upc,
      resolveCandidate_append a "specifications" (upc_patch u) "basic_info.upc" (by decide)]
    exact hau _ (by decide)
  have c8 : resolveCandidate (add_amazon_upc a u) "basic_info.gtin" = none := by
    rw [add_amazon_upc,
      resolveCandidate_append a "specifications" (upc_patch u) "basic_info.gtin" (by decide)]
    exact hau _ (by decide)
  have hfm : amazon_upc_paths.filterMap
      (resolveCandidate (add_amazon_upc a u)) = [u] := by
    rw [amazon_upc_paths]
    simp only [List.filterMap_cons, List.filterMap_nil, c1, c2, c3, c4, c5,
      c6, c7, c8]
  rw [extract_text_safely, foldl_text_eq, hfm, joinCandidates, joinCandidates,
    str_append_empty]
  have hpre : ("" : String) ++ (" " ++ u) = " " ++ u := by
    apply str_data_ext
    simp [str_data_append]
  rw [hpre, pyStrip_space_digits u hdig, pyLower_digits u hdig]

/-- After the patch, the target-side UPC extraction returns exactly the
added digit string. -/
theorem extract_upc_target_patched (b : PyDict) (u : String)
    (hb : dictGet b "product_details" = none)
    (hbu : ∀ p ∈ target_upc_paths, resolveCandidate b p = none)
    (hdig : u.data.all pyIsDigitChar = true) (hne : u ≠ "") :
    extract_text_safely (add_target_upc b u) target_upc_paths = u := by
  have c1 : resolveCandidate (add_target_upc b u) "basic_info.upc" = none := by
    rw [add_target_upc,
      resolveCandidate_append b "product_details" (upc_patch u) "basic_info.upc" (by decide)]
    exact hbu _ (by decide)
  have c2 : resolveCandidate (add_target_upc b u) "basic_info.gtin" = none := by
    rw [add_target_upc,
      resolveCandidate_append b "product_details" (upc_patch u) "basic_info.gtin" (by decide)]
    exact hbu _ (by decide)
  have c3 : resolveCandidate (add_target_upc b u)
      "technical_specs.specifications.upc" = none := by
    rw [add_target_upc, resolveCandidate_append b "product_details"
      (upc_patch u) "technical_specs.specifications.upc" (by decide)]
    exact hbu _ (by decide)
  have c4 : resolveCandidate (add_target_upc b u) "product_details.upc" = some u :=
    resolveCandidate_patch_upc b "product_details" u _ hb (by decide) hne
  have hfm : target_upc_paths.filterMap
      (resolveCandidate (add_target_upc b u)) = [u] := by
    rw [target_upc_paths]
    simp only [List.filterMap_cons, List.filterMap_nil, c1, c2, c3, c4]
  rw [extract_text_safely, foldl_text_eq, hfm, joinCandidates, joinCandidates,
    str_append_empty]
  have hpre : ("" : String) ++ (" " ++ u) = " " ++ u := by
    apply str_data_ext
    simp [str_data_append]
  rw [hpre, pyStrip_space_digits u hdig, pyLower_digits u hdig]

/-- The cleaned feature set is unchanged by the patch: the two new raw
tokens `upc` (too short) and the digit string (pure digits) are both
removed by the cleaning filter. -/
theorem features_patched (a : PyDict) (u : String)
    (ha : dictGet a "specifications" = none)
    (hdig : u.data.all pyIsDigitChar = true) (hne : u.data ≠ []) :
    extract_features (add_amazon_upc a u) = extract_features a := by
  have htop1 : get_nested_value (add_amazon_upc a u) "specifications" =
      some (upc_patch u) :=
    (get_nested_patch_top a "specifications" u "specifications" ha (by decide)).1
  have htop2 : get_nested_value a "specifications" = none :=
    (get_nested_patch_top a "specifications" u "specifications" ha (by decide)).2
  have h2 : get_nested_value (add_amazon_upc a u) "product_details.highlights" =
      get_nested_value a "product_details.highlights" :=
    get_nested_append a "specifications" (upc_patch u) _ (by decide)
  have h3 : get_nested_value (add_amazon_upc a u)
      "technical_specs.specifications" =
      get_nested_value a "technical_specs.specifications" :=
    get_nested_append a "specifications" (upc_patch u) _ (by decide)
  have htr : pyTruthy (upc_patch u) = true := rfl
  have hraw : gatherFromPaths featureVals (add_amazon_upc a u) feature_paths =
      featureVals (upc_patch u) ++ gatherFromPaths featureVals a
        ["product_details.highlights", "technical_specs.specifications"] := by
    rw [gatherFromPaths, feature_paths, List.foldl_cons, htop1]
    simp only [htr, if_true, List.nil_append]
    rw [gather_fold_shift featureVals (add_amazon_upc a u) _
      (featureVals (upc_patch u))]
    rw [gatherFromPaths_congr featureVals (add_amazon_upc a u) a _ ?_]
    intro p hp
    fin_cases hp
    · exact h2
    · exact h3
  have hrhs : gatherFromPaths featureVals a feature_paths =
      gatherFromPaths featureVals a
        ["product_details.highlights", "technical_specs.specifications"] := by
    rw [gatherFromPaths, feature_paths, List.foldl_cons, htop2]
    rfl
  have hfv : featureVals (upc_patch u) = ["upc", u] := by
    have hd : featureVals (upc_patch u) = [pyLower "upc", pyLower u] := rfl
    rw [hd, pyLower_digits u hdig, show pyLower "upc" = "upc" from by decide]
  have hdigit : pyIsdigitStr u = true := by
    rw [pyIsdigitStr, hdig]
    simp [hne]
  rw [extract_features, extract_features, hraw, hrhs, hfv]
  simp only [List.cons_append, List.nil_append, List.toFinset_cons]
  rw [Finset.filter_insert, Finset.filter_insert]
  rw [if_neg (by decide), if_neg (by simp [hdigit])]

/-- Shifting the starting total and a breakdown head through the
aggregation fold. -/
theorem foldl_addSignal_shift (l : List (String × ℚ)) :
    ∀ (t c : ℚ) (pre bd : List (String × ℚ)),
    l.foldl addSignal (t + c, pre ++ bd) =
      ((l.foldl addSignal (t, bd)).1 + c, pre ++ (l.foldl addSignal (t, bd)).2) := by
  induction l with
  | nil => intro t c pre bd; rfl
  | cons s rest ih =>
    intro t c pre bd
    rw [List.foldl_cons, List.foldl_cons, addSignal, addSignal]
    by_cases hs : 0 < s.2
    · rw [if_pos hs, if_pos hs]
      have h1 : t + c + s.2 = t + s.2 + c := by ring
      have h2 : pre ++ bd ++ [s] = pre ++ (bd ++ [s]) := List.append_assoc pre bd [s]
      rw [h1, h2, ih (t + s.2) c pre (bd ++ [s])]
    · rw [if_neg hs, if_neg hs, ih t c pre bd]

/-- A positive `upc_match` head raises the aggregate total by exactly 100
and prepends the breakdown entry, relative to the zero head. -/
theorem foldl_upc_head (l : List (String × ℚ)) :
    List.foldl addSignal (0, []) (("upc_match", (100 : ℚ)) :: l) =
      ((List.foldl addSignal (0, []) (("upc_match", (0 : ℚ)) :: l)).1 + 100,
        ("upc_match", (100 : ℚ)) ::
          (List.foldl addSignal (0, []) (("upc_match", (0 : ℚ)) :: l)).2) := by
  rw [List.foldl_cons, List.foldl_cons]
  have h0 : addSignal (0, []) ("upc_match", (0 : ℚ)) = (0, []) := by
    rw [addSignal, if_neg (lt_irrefl 0)]
  have h1 : addSignal (0, []) ("upc_match", (100 : ℚ)) =
      ((0 : ℚ) + 100, [("upc_match", (100 : ℚ))] ++ ([] : List (String × ℚ))) := by
    rw [addSignal, if_pos (by norm_num : (0 : ℚ) < 100)]
    rfl
  rw [h0, h1, foldl_addSignal_shift l 0 100 [("upc_match", (100 : ℚ))] []]
  rfl

/-! Concrete records for the UPC-monotonicity counterexample. -/

/-- Two identical records that score no identifier signal but carry a
non-matching text under an amazon-side identifier path. -/
def rec_gtin_foo : PyDict :=
  [("specifications", JValue.obj [("gtin", JValue.str "foo")])]

/-- `rec_gtin_foo` with the exact UPC added under the amazon-side
identifier path `specifications.upc`. -/
def rec_gtin_upc_amazon : PyDict :=
  [("specifications", JValue.obj
    [("gtin", JValue.str "foo"), ("upc", JValue.str "123456789")])]

/-- `rec_gtin_foo` with the exact UPC added under the target-side
identifier path `basic_info.upc`. -/
def rec_gtin_upc_target : PyDict :=
  [("specifications", JValue.obj [("gtin", JValue.str "foo")]),
   ("basic_info", JValue.obj [("upc", JValue.str "123456789")])]

/-- C7 counterexample: on two otherwise-identical records that score no
identifier signal, adding the same nine-digit UPC to both under
identifier paths does not raise the total by 100 — the amazon-side
extraction concatenates the pre-existing `gtin` text onto the UPC, the
equality test fails, and the total is unchanged. -/
theorem c7_upc_counterexample :
    ¬ ((calculate_match_score rec_gtin_upc_amazon rec_gtin_upc_target).1 =
       (calculate_match_score rec_gtin_foo rec_gtin_foo).1 + 100) := by
  have a1 : check_upc_match rec_gtin_upc_amazon rec_gtin_upc_target = 0 := by
    decide
  have a2 : check_model_match rec_gtin_upc_amazon rec_gtin_upc_target = 0 := by
    decide
  have a3 : check_brand_match rec_gtin_upc_amazon rec_gtin_upc_target = 0 := by
    decide
  have a4 : check_title_similarity rec_gtin_upc_amazon rec_gtin_upc_target = 0 := by
    decide
  have a5 : check_dimensions_match rec_gtin_upc_amazon rec_gtin_upc_target = 0 := by
    decide
  have a6 : check_weight_match rec_gtin_upc_amazon rec_gtin_upc_target = 0 := by
    decide
  have a7 : check_price_match rec_gtin_upc_amazon rec_gtin_upc_target = 0 := by
    decide
  have a8 : check_category_match rec_gtin_upc_amazon rec_gtin_upc_target = 0 := by
    decide
  have a9 : check_color_match rec_gtin_upc_amazon rec_gtin_upc_target = 0 := by
    decide
  have a10 : check_material_match rec_gtin_upc_amazon rec_gtin_upc_target = 0 := by
    decide
  have a11 : check_feature_keywords rec_gtin_upc_amazon rec_gtin_upc_target = 5 := by
    rw [feature_score_eq_card]
    have h : extract_features rec_gtin_upc_amazon ∩
        extract_features rec_gtin_upc_target = {"gtin"} := by decide
    rw [h]
    norm_num
  have a12 : check_furniture_compatibility rec_gtin_upc_amazon rec_gtin_upc_target = 0 := by
    decide
  have b1 : check_upc_match rec_gtin_foo rec_gtin_foo = 0 := by decide
  have b2 : check_model_match rec_gtin_foo rec_gtin_foo = 0 := by decide
  have b3 : check_brand_match rec_gtin_foo rec_gtin_foo = 0 := by decide
  have b4 : check_title_similarity rec_gtin_foo rec_gtin_foo = 0 := by decide
  have b5 : check_dimensions_match rec_gtin_foo rec_gtin_foo = 0 := by decide
  have b6 : check_weight_match rec_gtin_foo rec_gtin_foo = 0 := by decide
  have b7 : check_price_match rec_gtin_foo rec_gtin_foo = 0 := by decide
  have b8 : check_category_match rec_gtin_foo rec_gtin_foo = 0 := by decide
  have b9 : check_color_match rec_gtin_foo rec_gtin_foo = 0 := by decide
  have b10 : check_material_match rec_gtin_foo rec_gtin_foo = 0 := by decide
  have b11 : check_feature_keywords rec_gtin_foo rec_gtin_foo = 5 := by
    rw [feature_score_eq_card]
    have h : extract_features rec_gtin_foo ∩ extract_features rec_gtin_foo =
        {"gtin"} := by decide
    rw [h]
    norm_num
  have b12 : check_furniture_compatibility rec_gtin_foo rec_gtin_foo = 0 := by
    decide
  rw [calculate_match_score, calculate_match_score, signalList, signalList,
    a1, a2, a3, a4, a5, a6, a7, a8, a9, a10, a11, a12,
    b1, b2, b3, b4, b5, b6, b7, b8, b9, b10, b11, b12]
  norm_num [addSignal]

/-- C7 amended: on records that resolve no text at all under the
identifier path lists (not merely records whose identifier signal scores
zero), with fresh `specifications` and `product_details` keys, adding the
same digit-string UPC of length at least nine to both records under the
identifier paths raises the total by exactly 100 and prepends the
breakdown entry `upc_match = 100`; every other signal is unchanged. -/
theorem c7_upc_monotonicity_amended (a b : PyDict) (u : String)
    (ha : dictGet a "specifications" = none)
    (hb : dictGet b "product_details" = none)
    (hau : ∀ p ∈ amazon_upc_paths, resolveCandidate a p = none)
    (hbu : ∀ p ∈ target_upc_paths, resolveCandidate b p = none)
    (hdig : u.data.all pyIsDigitChar = true)
    (hlen : 9 ≤ u.length) :
    calculate_match_score (add_amazon_upc a u) (add_target_upc b u) =
      ((calculate_match_score a b).1 + 100,
        ("upc_match", (100 : ℚ)) :: (calculate_match_score a b).2) := by
  have hdne : u.data ≠ [] := by
    intro hc
    have : u.length = 0 := by
      show u.data.length = 0
      rw [hc]
      rfl
    omega
  have hne : u ≠ "" := by
    intro hc
    apply hdne
    rw [hc]
  have e_upc1 : check_upc_match (add_amazon_upc a u) (add_target_upc b u) = 100 := by
    rw [check_upc_match]
    simp only [extract_upc_amazon_patched a u ha hau hdig hne,
      extract_upc_target_patched b u hb hbu hdig hne]
    rw [if_pos ⟨hne, hne, (by omega : 8 < u.length)⟩]
    simp +decide [scoring_weights]
  have e_upc0 : check_upc_match a b = 0 := by
    simp [check_upc_match, extract_text_none a amazon_upc_paths hau]
  have hm1 : extract_text_safely (add_amazon_upc a u) amazon_model_paths =
      extract_text_safely a amazon_model_paths := by
    apply extract_text_congr
    intro p hp
    fin_cases hp
    · exact resolve_patch_deep_eq a "specifications" u _ "model_number" [] ha
        (by decide) (by decide)
    · exact resolve_patch_deep_eq a "specifications" u _ "model" [] ha
        (by decide) (by decide)
    · exact resolveCandidate_append a "specifications" (upc_patch u)
        "identifiers.model_number" (by decide)
    · exact resolveCandidate_append a "specifications" (upc_patch u)
        "basic_info.model_number" (by decide)
  have hm2 : extract_text_safely (add_target_upc b u) target_model_paths =
      extract_text_safely b target_model_paths := by
    apply extract_text_congr
    intro p hp
    fin_cases hp
    · exact resolveCandidate_append b "product_details" (upc_patch u)
        "basic_info.model_number" (by decide)
    · exact resolveCandidate_append b "product_details" (upc_patch u)
        "technical_specs.specifications.model_number" (by decide)
    · exact resolve_patch_deep_eq b "product_details" u _ "model" [] hb
        (by decide) (by decide)
  have e_model : check_model_match (add_amazon_upc a u) (add_target_upc b u) =
      check_model_match a b := by
    simp only [check_model_match, hm1, hm2]
  have hbr1 : extract_text_safely (add_amazon_upc a u) ["brand", "basic_info.brand"] =
      extract_text_safely a ["brand", "basic_info.brand"] := by
    apply extract_text_congr
    intro p hp
    fin_cases hp
    · exact resolveCandidate_append a "specifications" (upc_patch u)
        "brand" (by decide)
    · exact resolveCandidate_append a "specifications" (upc_patch u)
        "basic_info.brand" (by decide)
  have hbr2 : extract_text_safely (add_target_upc b u) ["basic_info.brand", "brand"] =
      extract_text_safely b ["basic_info.brand", "brand"] := by
    apply extract_text_congr
    intro p hp
    fin_cases hp
    · exact resolveCandidate_append b "product_details" (upc_patch u)
        "basic_info.brand" (by decide)
    · exact resolveCandidate_append b "product_details" (upc_patch u)
        "brand" (by decide)
  have e_brand : check_brand_match (add_amazon_upc a u) (add_target_upc b u) =
      check_brand_match a b := by
    simp only [check_brand_match, hbr1, hbr2]
  have ht1 : extract_text_safely (add_amazon_upc a u) ["title", "basic_info.name"] =
      extract_text_safely a ["title", "basic_info.name"] := by
    apply extract_text_congr
    intro p hp
    fin_cases hp
    · exact resolveCandidate_append a "specifications" (upc_patch u)
        "title" (by decide)
    · exact resolveCandidate_append a "specifications" (upc_patch u)
        "basic_info.name" (by decide)
  have ht2 : extract_text_safely (add_target_upc b u) ["basic_info.name", "title"] =
      extract_text_safely b ["basic_info.name", "title"] := by
    apply extract_text_congr
    intro p hp
    fin_cases hp
    · exact resolveCandidate_append b "product_details" (upc_patch u)
        "basic_info.name" (by decide)
    · exact resolveCandidate_append b "product_details" (upc_patch u)
        "title" (by decide)
  have e_title : check_title_similarity (add_amazon_upc a u) (add_target_upc b u) =
      check_title_similarity a b := by
    simp only [check_title_similarity, ht1, ht2]
  have hdims1 : extract_dimensions (add_amazon_upc a u) = extract_dimensions a := by
    rw [extract_dimensions, extract_dimensions]
    apply probeFirst_congr
    intro p hp
    fin_cases hp
    · exact get_nested_append a "specifications" (upc_patch u)
        "physical_attributes" (by decide)
    · exact get_nested_patch_deep_eq a "specifications" u _ "dimensions" [] ha
        (by decide) (by decide)
    · exact get_nested_append a "specifications" (upc_patch u)
        "technical_specs.specifications" (by decide)
  have hdims2 : extract_dimensions (add_target_upc b u) = extract_dimensions b := by
    rw [extract_dimensions, extract_dimensions]
    apply probeFirst_congr
    intro p hp
    fin_cases hp
    · exact get_nested_append b "product_details" (upc_patch u)
        "physical_attributes" (by decide)
    · exact get_nested_append b "product_details" (upc_patch u)
        "specifications.dimensions" (by decide)
    · exact get_nested_append b "product_details" (upc_patch u)
        "technical_specs.specifications" (by decide)
  have e_dims : check_dimensions_match (add_amazon_upc a u) (add_target_upc b u) =
      check_dimensions_match a b := by
    simp only [check_dimensions_match, hdims1, hdims2]
  have hw1 : extract_weight (add_amazon_upc a u) = extract_weight a := by
    rw [extract_weight, extract_weight]
    apply probeFirst_congr
    intro p hp
    fin_cases hp
    · exact get_nested_append a "specifications" (upc_patch u)
        "physical_attributes.weight" (by decide)
    · exact get_nested_patch_deep_eq a "specifications" u _ "weight" [] ha
        (by decide) (by decide)
    · exact get_nested_append a "specifications" (upc_patch u)
        "technical_specs.specifications.weight" (by decide)
  have hw2 : extract_weight (add_target_upc b u) = extract_weight b := by
    rw [extract_weight, extract_weight]
    apply probeFirst_congr
    intro p hp
    fin_cases hp
    · exact get_nested_append b "product_details" (upc_patch u)
        "physical_attributes.weight" (by decide)
    · exact get_nested_append b "product_details" (upc_patch u)
        "specifications.weight" (by decide)
    · exact get_nested_append b "product_details" (upc_patch u)
        "technical_specs.specifications.weight" (by decide)
  have e_weight : check_weight_match (add_amazon_upc a u) (add_target_upc b u) =
      check_weight_match a b := by
    simp only [check_weight_match, hw1, hw2]
  have hp1 : extract_price (add_amazon_upc a u) = extract_price a := by
    rw [extract_price, extract_price]
    apply probeFirst_congr
    intro p hp
    fin_cases hp
    · exact get_nested_append a "specifications" (upc_patch u)
        "pricing.current_price" (by decide)
    · exact get_nested_append a "specifications" (upc_patch u)
        "pricing.formatted_current_price" (by decide)
    · exact get_nested_append a "specifications" (upc_patch u)
        "pricing.price" (by decide)
  have hp2 : extract_price (add_target_upc b u) = extract_price b := by
    rw [extract_price, extract_price]
    apply probeFirst_congr
    intro p hp
    fin_cases hp
    · exact get_nested_append b "product_details" (upc_patch u)
        "pricing.current_price" (by decide)
    · exact get_nested_append b "product_details" (upc_patch u)
        "pricing.formatted_current_price" (by decide)
    · exact get_nested_append b "product_details" (upc_patch u)
        "pricing.price" (by decide)
  have e_price : check_price_match (add_amazon_upc a u) (add_target_upc b u) =
      check_price_match a b := by
    simp only [check_price_match, hp1, hp2]
  have hcat1 : extract_categories (add_amazon_upc a u) = extract_categories a := by
    rw [extract_categories, extract_categories]
    rw [gatherFromPaths_congr gatherStrings (add_amazon_upc a u) a category_paths ?_]
    intro p hp
    fin_cases hp
    · exact get_nested_append a "specifications" (upc_patch u)
        "categories" (by decide)
    · exact get_nested_append a "specifications" (upc_patch u)
        "category_info.category_name" (by decide)
    · exact get_nested_append a "specifications" (upc_patch u)
        "breadcrumbs" (by decide)
  have hcat2 : extract_categories (add_target_upc b u) = extract_categories b := by
    rw [extract_categories, extract_categories]
    rw [gatherFromPaths_congr gatherStrings (add_target_upc b u) b category_paths ?_]
    intro p hp
    fin_cases hp
    · exact get_nested_append b "product_details" (upc_patch u)
        "categories" (by decide)
    · exact get_nested_append b "product_details" (upc_patch u)
        "category_info.category_name" (by decide)
    · exact get_nested_append b "product_details" (upc_patch u)
        "breadcrumbs" (by decide)
  have e_cat : check_category_match (add_amazon_upc a u) (add_target_upc b u) =
      check_category_match a b := by
    simp only [check_category_match, hcat1, hcat2, ht1, ht2]
  have hcol1 : extract_color (add_amazon_upc a u) = extract_color a := by
    rw [extract_color, extract_color]
    apply probeFirst_congr
    intro p hp
    fin_cases hp
    · exact get_nested_append a "specifications" (upc_patch u)
        "variations.color" (by decide)
    · exact get_nested_patch_deep_eq a "specifications" u _ "color" [] ha
        (by decide) (by decide)
    · exact get_nested_append a "specifications" (upc_patch u)
        "product_details.color" (by decide)
  have hcol2 : extract_color (add_target_upc b u) = extract_color b := by
    rw [extract_color, extract_color]
    apply probeFirst_congr
    intro p hp
    fin_cases hp
    · exact get_nested_append b "product_details" (upc_patch u)
        "variations.color" (by decide)
    · exact get_nested_append b "product_details" (upc_patch u)
        "specifications.color" (by decide)
    · exact get_nested_patch_deep_eq b "product_details" u _ "color" [] hb
        (by decide) (by decide)
  have e_color : check_color_match (add_amazon_upc a u) (add_target_upc b u) =
      check_color_match a b := by
    simp only [check_color_match, hcol1, hcol2]
  have hmat1 : extract_materials (add_amazon_upc a u) = extract_materials a := by
    rw [extract_materials, extract_materials]
    rw [gatherFromPaths_congr gatherStrings (add_amazon_upc a u) a material_paths ?_]
    intro p hp
    fin_cases hp
    · exact get_nested_patch_deep_eq a "specifications" u _ "material" [] ha
        (by decide) (by decide)
    · exact get_nested_append a "specifications" (upc_patch u)
        "product_details.materials" (by decide)
    · exact get_nested_append a "specifications" (upc_patch u)
        "technical_specs.specifications.material" (by decide)
  have hmat2 : extract_materials (add_target_upc b u) = extract_materials b := by
    rw [extract_materials, extract_materials]
    rw [gatherFromPaths_congr gatherStrings (add_target_upc b u) b material_paths ?_]
    intro p hp
    fin_cases hp
    · exact get_nested_append b "product_details" (upc_patch u)
        "specifications.material" (by decide)
    · exact get_nested_patch_deep_eq b "product_details" u _ "materials" [] hb
        (by decide) (by decide)
    · exact get_nested_append b "product_details" (upc_patch u)
        "technical_specs.specifications.material" (by decide)
  have e_mat : check_material_match (add_amazon_upc a u) (add_target_upc b u) =
      check_material_match a b := by
    simp only [check_material_match, hmat1, hmat2]
  have hfeat1 : extract_features (add_amazon_upc a u) = extract_features a :=
    features_patched a u ha hdig hdne
  have hfeat2 : extract_features (add_target_upc b u) = extract_features b := by
    rw [extract_features, extract_features]
    rw [gatherFromPaths_congr featureVals (add_target_upc b u) b feature_paths ?_]
    intro p hp
    fin_cases hp
    · exact get_nested_append b "product_details" (upc_patch u)
        "specifications" (by decide)
    · exact get_nested_patch_deep_eq b "product_details" u _ "highlights" [] hb
        (by decide) (by decide)
    · exact get_nested_append b "product_details" (upc_patch u)
        "technical_specs.specifications" (by decide)
  have e_feat : check_feature_keywords (add_amazon_upc a u) (add_target_upc b u) =
      check_feature_keywords a b := by
    simp only [check_feature_keywords, hfeat1, hfeat2]
  have e_compat : check_furniture_compatibility (add_amazon_upc a u)
      (add_target_upc b u) = check_furniture_compatibility a b := by
    simp only [check_furniture_compatibility, ht1, ht2]
  rw [calculate_match_score, calculate_match_score, signalList, signalList,
    e_upc1, e_upc0, e_model, e_brand, e_title, e_dims, e_weight, e_price,
    e_cat, e_color, e_mat, e_feat, e_compat]
  exact foldl_upc_head _

/-- Witness for C7 amended at the empty records and the UPC
"012345678905". -/
theorem c7_upc_monotonicity_amended_witness :
    calculate_match_score (add_amazon_upc [] "012345678905")
        (add_target_upc [] "012345678905") =
      ((calculate_match_score [] []).1 + 100,
        ("upc_match", (100 : ℚ)) :: (calculate_match_score [] []).2) :=
  c7_upc_monotonicity_amended [] [] "012345678905" rfl rfl
    (by decide) (by decide) (by decide) (by decide)

end ProductMatching
